import Mathlib

/-!
# PolyFit: the pipeline controller

A shallow embedding of the controller code of PolyFit, `PaintCanvas`
(paint_canvas.cpp) and `MainWindow` (main_window.cpp): the four stage slots
`refinePlanes`, `generateFacetHypothesis`, `generateQualityMeasures`,
`optimization`, the file loader `doOpen`, and the helpers they call.

Both objects are embedded as one record `State`; every slot is a function
`Env → State → State`.  The collaborators whose sources are outside the two
files (the hypothesis generator, the face selection, mesh and point-set I/O,
the weight panels) are the fields of `Env`.  Each collaborator has the effect
of its stage and no other: `refine_planes` rewrites the generator and the point
set it was built on, `compute_confidences` rewrites the facets of the mesh it
is given, `FaceSelection::optimize` rewrites the facets of the mesh the
selector was built on, `generate` returns a mesh instance;
`ready_for_optimization` and the counting functions only read.  `Geom::duplicate`
is embedded from what the spec says of its result.

Pointers are `Option`s.  A mesh carries the address of its instance, so that
two instances with equal content can be told apart.  Rendering (camera,
OpenGL, repaint) is left out.  `QCoreApplication::processEvents()` dispatches
the requests that are pending when `update_all` calls it: the slots of
`PaintCanvas` are embedded twice, with nothing pending (`PaintCanvas.*`, which
`step` and `Reachable` run) and entered with requests pending (`Pending.*`).
The record keeps a `trace` of what a caller can
observe besides the fields: logger lines, message boxes, status messages and
every call of a stage computation together with the enabled flags of the four
stage actions at the moment of the call.
-/

namespace PolyFit

/-! ## Data model -/

/-- A colour value (`Color`), as an abstract code. -/
abbrev Color := Nat

/-- A weight value (`Method::weight_*`), as an abstract code of the float. -/
abbrev Weight := Nat

/-- A planar segment of the point cloud (`VertexGroup`): the indices of its
points and its display colour. -/
structure VertexGroup where
  points : List Nat
  color : Color
  deriving DecidableEq, Repr

/-- The point cloud (`PointSet`): its number of points and its planar groups. -/
structure PointSet where
  num_points : Nat
  groups : List VertexGroup
  deriving DecidableEq, Repr

/-- A facet of a mesh: its `"color"` attribute and, abstractly, everything else
attached to it (supporting plane, confidence attributes). -/
structure Facet where
  color : Color
  data : Nat
  deriving DecidableEq, Repr

/-- A polygon mesh (`Map`): the address of the instance and its facets. -/
structure Map where
  addr : Nat
  facets : List Facet
  deriving DecidableEq, Repr

/-- Number of facets of a mesh (`Map::size_of_facets`). -/
def Map.size_of_facets (m : Map) : Nat := m.facets.length

/-- The hypothesis generator (`HypothesisGenerator`), with its internal state
kept abstract. -/
structure HypothesisGenerator where
  state : Nat
  deriving DecidableEq, Repr

/-- The three global weights `Method::weight_data_fitting`,
`Method::weight_model_coverage`, `Method::weight_model_complexity`. -/
structure Weights where
  fitting : Weight
  coverage : Weight
  complexity : Weight
  deriving DecidableEq, Repr

/-- The solver backends (`LinearProgramSolver::SolverName`). -/
inductive SolverName where
  | GUROBI
  | SCIP
  | GLPK
  | LPSOLVE
  deriving DecidableEq, Repr

/-- An edge style of the surface renderer (`EdgeStyle`). -/
structure EdgeStyle where
  visible : Bool
  color : Color
  width : Nat
  deriving DecidableEq, Repr

/-- Enabled flags of the four stage actions `actionRefinePlanes`,
`actionGenerateFacetHypothesis`, `actionGenerateQualityMeasures`,
`actionOptimization` (`true` = enabled). -/
structure Actions where
  refinePlanes : Bool
  generateFacetHypothesis : Bool
  generateQualityMeasures : Bool
  optimization : Bool
  deriving DecidableEq, Repr

/-- The manual weight panel (`WeightPanelManual`): the content of its three
input fields and whether it is shown. -/
structure WeightPanelManual where
  fields : Weights
  visible : Bool
  deriving DecidableEq, Repr

/-- The click weight panel (`WeightPanelClick`): the weights it displays and
whether it is shown. -/
structure WeightPanelClick where
  shown : Weights
  visible : Bool
  deriving DecidableEq, Repr

/-- What `FaceSelection::optimize` leaves behind: whether the solve succeeded
and the facets of the mesh it worked on.  The caller sees only the mesh. -/
structure SolveResult where
  solved : Bool
  facets : List Facet
  deriving DecidableEq, Repr

/-- What a caller can observe besides the fields of the state. -/
inductive Event where
  | warn (msg : String)
  | out (msg : String)
  | messageBox (title : String) (text : String)
  | status (msg : String)
  | refine_planes (acts : Actions)
  | generate (acts : Actions) (produced : Bool)
  | compute_confidences (acts : Actions) (mesh : Map)
  | optimize (acts : Actions) (mesh : Map) (solver : SolverName) (w : Weights)
      (solved : Bool)
  deriving DecidableEq, Repr

/-- The collaborators of the two source files. -/
structure Env where
  /-- Whether the build defines `HAS_GUROBI`. -/
  HAS_GUROBI : Bool
  /-- The constructor `HypothesisGenerator(PointSet*)`. -/
  new_HypothesisGenerator : PointSet → HypothesisGenerator
  /-- The method `HypothesisGenerator::refine_planes()`: the generator and its
  point set afterwards. -/
  refine_planes : HypothesisGenerator → PointSet → HypothesisGenerator × PointSet
  /-- The method `HypothesisGenerator::generate()`: the candidate mesh, or nil. -/
  generate : HypothesisGenerator → PointSet → Option Map
  /-- The method `HypothesisGenerator::compute_confidences(mesh, false)`: the
  facets of `mesh` afterwards. -/
  compute_confidences : HypothesisGenerator → PointSet → Map → List Facet
  /-- The method `HypothesisGenerator::ready_for_optimization(mesh)`. -/
  ready_for_optimization : HypothesisGenerator → Map → Bool
  /-- The call `FaceSelection(pset, mesh).optimize(generator, solver, weights)`. -/
  optimize : PointSet → Map → HypothesisGenerator → SolverName → Weights → SolveResult
  /-- The function `random_color()`, by the number of the draw. -/
  random_color : Nat → Color
  /-- The function `MapEnumerator::enumerate_planar_components`. -/
  enumerate_planar_components : Map → Nat
  /-- The mesh reader `MapIO::read`. -/
  MapIO_read : String → Option Map
  /-- The point-set reader `PointSetIO::read`. -/
  PointSetIO_read : String → Option PointSet
  /-- The function `FileUtils::extension`. -/
  extension : String → String
  /-- The function `String::to_lowercase`. -/
  to_lowercase : String → String
  /-- The function `truncate_digits`. -/
  truncate_digits : Weight → Nat → Weight
  /-- The method `WeightPanelManual::updateWeights()`: the global weights
  afterwards, from the panel and the weights before. -/
  panel_updateWeights : WeightPanelManual → Weights → Weights

/-- The main window together with its canvas. -/
structure State where
  -- PaintCanvas
  point_set_ : Option PointSet
  hypothesis_mesh_ : Option Map
  optimized_mesh_ : Option Map
  hypothesis_ : Option HypothesisGenerator
  show_input_ : Bool
  show_candidates_ : Bool
  show_result_ : Bool
  show_mouse_hint_ : Bool
  hint_text_ : String
  hint_text2nd_ : String
  /-- The sharp-edge style of `mesh_render_`. -/
  sharp_edge_style : EdgeStyle
  -- MainWindow
  actions : Actions
  checkBoxShowInput : Bool
  checkBoxShowCandidates : Bool
  checkBoxShowResult : Bool
  /-- The check box `wgtRender_->checkBoxPerFaceColor`. -/
  checkBoxPerFaceColor : Bool
  numPointsLabel_ : String
  numHypoFacesLabel_ : String
  numOptimizedFacesLabel_ : String
  /-- The current text of `solverBox_`. -/
  solverBox_ : String
  panelClick_ : WeightPanelClick
  panelManual_ : Option WeightPanelManual
  default_weights_ : Weights
  curDataDirectory_ : String
  pointCloudFileName_ : String
  hypothesisMeshFileName_ : String
  optimizedMeshFileName_ : String
  -- globals
  /-- The globals `Method::weight_*`. -/
  weights : Weights
  /-- Number of `random_color()` draws so far. -/
  rand_ : Nat
  trace : List Event
  deriving DecidableEq, Repr

/-- Append an event to the trace. -/
def State.emit (s : State) (e : Event) : State :=
  { s with trace := s.trace ++ [e] }

/-! ## MainWindow -/

namespace MainWindow

/-- `MainWindow::updateStatusBar` (main_window.cpp 360-383). -/
def updateStatusBar (E : Env) (s : State) : State :=
  let points :=
    match s.point_set_ with
    | some p => "#points: " ++ toString p.num_points
    | none => "#points: 0"
  let hypoFaces :=
    match s.hypothesis_mesh_ with
    | some m => "#faces(candidates): " ++ toString m.size_of_facets
    | none => "#faces(hypo): 0"
  let optimizedFaces :=
    match s.optimized_mesh_ with
    | some m => "#faces(final): " ++ toString (E.enumerate_planar_components m)
    | none => "#faces(result): 0"
  { s with
    numPointsLabel_ := points
    numHypoFacesLabel_ := hypoFaces
    numOptimizedFacesLabel_ := optimizedFaces }

/-- `MainWindow::disableActions` (main_window.cpp 237-242). -/
def disableActions (b : Bool) (s : State) : State :=
  { s with actions :=
      { refinePlanes := !b
        generateFacetHypothesis := !b
        generateQualityMeasures := !b
        optimization := !b } }

/-- `MainWindow::defaultRenderingForCandidates` (main_window.cpp 245-247). -/
def defaultRenderingForCandidates (s : State) : State :=
  { s with checkBoxPerFaceColor := true }

/-- `MainWindow::defaultRenderingForResult` (main_window.cpp 250-252). -/
def defaultRenderingForResult (s : State) : State :=
  { s with checkBoxPerFaceColor := false }

/-- `WeightPanelClick::updateUI`: the panel shows the global weights. -/
def panelClick_updateUI (s : State) : State :=
  { s with panelClick_ := { s.panelClick_ with shown := s.weights } }

/-- `MainWindow::updateWeights` (main_window.cpp 230-234). -/
def updateWeights (E : Env) (s : State) : State :=
  let s := panelClick_updateUI s
  match s.panelManual_ with
  | some p => { s with weights := E.panel_updateWeights p s.weights }
  | none => s

/-- `MainWindow::active_solver` (main_window.cpp 595-609). -/
def active_solver (E : Env) (s : State) : SolverName :=
  if E.HAS_GUROBI && s.solverBox_ == "GUROBI" then SolverName.GUROBI
  else SolverName.SCIP

end MainWindow

/-! ## PaintCanvas -/

namespace PaintCanvas

/-- `PaintCanvas::update_all` (paint_canvas.cpp 301-312) with no request
pending: repaint, refresh the status bar, and `processEvents()` finds nothing
to dispatch.  `Pending.update_all` is the call with requests pending. -/
def update_all (E : Env) (s : State) : State :=
  MainWindow.updateStatusBar E s

/-- `PaintCanvas::setShowInput` (paint_canvas.cpp 448-451). -/
def setShowInput (E : Env) (b : Bool) (s : State) : State :=
  update_all E { s with show_input_ := b }

/-- `PaintCanvas::setShowCandidates` (paint_canvas.cpp 454-457). -/
def setShowCandidates (E : Env) (b : Bool) (s : State) : State :=
  update_all E { s with show_candidates_ := b }

/-- `PaintCanvas::setShowResult` (paint_canvas.cpp 460-463). -/
def setShowResult (E : Env) (b : Bool) (s : State) : State :=
  update_all E { s with show_result_ := b }

end PaintCanvas

namespace MainWindow

/-- `checkBoxShowInput->setChecked(b)`: when the box changes, its `toggled`
signal runs the connected slot `PaintCanvas::setShowInput`
(main_window.cpp 204). -/
def checkBoxShowInput_setChecked (E : Env) (b : Bool) (s : State) : State :=
  if s.checkBoxShowInput = b then s
  else PaintCanvas.setShowInput E b { s with checkBoxShowInput := b }

/-- `checkBoxShowCandidates->setChecked(b)`, connected to
`PaintCanvas::setShowCandidates` (main_window.cpp 205). -/
def checkBoxShowCandidates_setChecked (E : Env) (b : Bool) (s : State) : State :=
  if s.checkBoxShowCandidates = b then s
  else PaintCanvas.setShowCandidates E b { s with checkBoxShowCandidates := b }

/-- `checkBoxShowResult->setChecked(b)`, connected to
`PaintCanvas::setShowResult` (main_window.cpp 206). -/
def checkBoxShowResult_setChecked (E : Env) (b : Bool) (s : State) : State :=
  if s.checkBoxShowResult = b then s
  else PaintCanvas.setShowResult E b { s with checkBoxShowResult := b }

end MainWindow

/-! ## Copying a mesh -/

/-- Modelled from the spec: `Geom::duplicate` (declared in
model/map_geometry.h, which is not under src/).  The spec has the selector work
on "a new, independent mesh instance (the CandidateMesh is never mutated in
place)": the copy has the facets of its argument and is a new instance, at an
address that none of the instances in use, `live`, has. -/
def Geom.duplicate (live : List Nat) (m : Map) : Map :=
  { addr := live.foldr max 0 + 1, facets := m.facets }

/-! ## PaintCanvas: artifacts and stages -/

namespace PaintCanvas

/-- `Logger::warn("-") << msg`. -/
def warn (msg : String) (s : State) : State := s.emit (Event.warn msg)

/-- Give every group a colour drawn by `random_color()`, the first draw being
number `n` (the loop of paint_canvas.cpp 419-421). -/
def colorGroups (E : Env) : Nat → List VertexGroup → List VertexGroup
  | _, [] => []
  | n, g :: gs => { g with color := E.random_color n } :: colorGroups E (n + 1) gs

/-- Give every facet a colour drawn by `random_color()`, the first draw being
number `n` (the loop of paint_canvas.cpp 524-526). -/
def colorFacets (E : Env) : Nat → List Facet → List Facet
  | _, [] => []
  | n, f :: fs => { f with color := E.random_color n } :: colorFacets E (n + 1) fs

/-- `PaintCanvas::clear` (paint_canvas.cpp 86-100). -/
def clear (s : State) : State :=
  { s with
    point_set_ := none
    hypothesis_mesh_ := none
    optimized_mesh_ := none
    hypothesis_ := none }

/-- `PaintCanvas::setMesh` (paint_canvas.cpp 406-411). -/
def setMesh (mesh : Map) (s : State) : State :=
  { s with optimized_mesh_ := some mesh }

/-- `PaintCanvas::setPointSet` (paint_canvas.cpp 414-432), for a point set that
exists (the function dereferences it). -/
def setPointSet (E : Env) (pset : PointSet) (s : State) : State :=
  let pset := { pset with groups := colorGroups E s.rand_ pset.groups }
  let s := { s with point_set_ := some pset, rand_ := s.rand_ + pset.groups.length }
  let s :=
    if s.point_set_.isSome then
      { s with
        hint_text_ := "Next: click \x27Refine\x27 to merge very close and near-parallel planar segments."
        hint_text2nd_ := "" }
    else s
  { s with show_mouse_hint_ := true }

/-- `PaintCanvas::hypothesisMesh` (paint_canvas.cpp 435-437). -/
def hypothesisMesh (s : State) : Option Map := s.hypothesis_mesh_

/-- `PaintCanvas::optimizedMesh` (paint_canvas.cpp 439-441). -/
def optimizedMesh (s : State) : Option Map := s.optimized_mesh_

/-- `PaintCanvas::pointSet` (paint_canvas.cpp 443-445). -/
def pointSet (s : State) : Option PointSet := s.point_set_

/-- `PaintCanvas::refinePlanes` (paint_canvas.cpp 466-495). -/
def refinePlanes (E : Env) (s : State) : State :=
  match pointSet s with
  | none => warn "point set does not exist" s
  | some pset =>
    if pset.groups.isEmpty then warn "planar segments do not exist" s
    else
      let s := MainWindow.disableActions true s
      let r := E.refine_planes (E.new_HypothesisGenerator pset) pset
      let s := { s with hypothesis_ := some r.1, point_set_ := some r.2 }
      let s := s.emit (Event.refine_planes s.actions)
      let s := MainWindow.checkBoxShowInput_setChecked E true s
      let s := { s with actions := { s.actions with generateFacetHypothesis := true } }
      let s := MainWindow.defaultRenderingForCandidates s
      let s := { s with
                 hint_text_ := "Next: click \x27Hypothesis\x27 to generate candidate faces."
                 hint_text2nd_ := "" }
      update_all E s

/-- `PaintCanvas::generateFacetHypothesis` (paint_canvas.cpp 498-543).  The
elapsed time is left out of the line logged on success. -/
def generateFacetHypothesis (E : Env) (s : State) : State :=
  match s.point_set_ with
  | none => warn "point set does not exist" s
  | some pset =>
    match s.hypothesis_ with
    | none => warn "please refine the planes first" s
    | some g =>
      if pset.groups.isEmpty then warn "planar segments do not exist" s
      else
        let s := MainWindow.disableActions true s
        let s := s.emit (Event.out "generating plane hypothesis...")
        let r := E.generate g pset
        let s := { s with hypothesis_mesh_ := r }
        let s := s.emit (Event.generate s.actions r.isSome)
        match r with
        | some m =>
          let s := s.emit (Event.out "done.")
          let s := { s with
                     hypothesis_mesh_ := some { m with facets := colorFacets E s.rand_ m.facets }
                     rand_ := s.rand_ + m.facets.length }
          let s := MainWindow.checkBoxShowInput_setChecked E false s
          let s := MainWindow.checkBoxShowCandidates_setChecked E true s
          let s := { s with actions := { s.actions with generateQualityMeasures := true } }
          let s := MainWindow.defaultRenderingForCandidates s
          let s := { s with
                     hint_text_ := "Next: click \x27Confidences\x27 to compute point/face confidences."
                     hint_text2nd_ := "" }
          update_all E s
        | none =>
          let s := s.emit (Event.messageBox "Error!"
            "Failed generating candidate faces. \nCheck if the input point cloud has good planar segments.")
          { s with
            hint_text_ := "Failed generating candidate faces :-("
            hint_text2nd_ := "Check if the input point cloud has good planar segments." }

/-- `PaintCanvas::generateQualityMeasures` (paint_canvas.cpp 546-579). -/
def generateQualityMeasures (E : Env) (s : State) : State :=
  match s.point_set_ with
  | none => warn "point set does not exist" s
  | some pset =>
    match s.hypothesis_mesh_, s.hypothesis_ with
    | some hm, some g =>
      let style := s.sharp_edge_style
      let s :=
        if style.visible then
          { s with sharp_edge_style := { style with visible := false } }
        else s
      let s := MainWindow.disableActions true s
      let s := { s with
                 hypothesis_mesh_ := some { hm with facets := E.compute_confidences g pset hm } }
      let s := s.emit (Event.compute_confidences s.actions hm)
      let s := MainWindow.checkBoxShowCandidates_setChecked E true s
      let s := { s with actions := { s.actions with optimization := true } }
      let s := MainWindow.defaultRenderingForCandidates s
      let s := { s with
                 hint_text_ := "Next: click \x27Optimization\x27 for face selection."
                 hint_text2nd_ := "" }
      let s := if style.visible then { s with sharp_edge_style := style } else s
      update_all E s
    | _, _ => warn "face hypothesis do not exist" s

/-- The addresses of the mesh instances the canvas holds. -/
def meshAddresses (s : State) : List Nat :=
  (s.hypothesis_mesh_.toList ++ s.optimized_mesh_.toList).map Map.addr

/-- `PaintCanvas::optimization` (paint_canvas.cpp 582-654).  The selector works
on `mesh`, the duplicate, in place; nothing it reports is read. -/
def optimization (E : Env) (s : State) : State :=
  match s.point_set_ with
  | none => warn "point set does not exist" s
  | some pset =>
    match s.hypothesis_mesh_, s.hypothesis_ with
    | some hm, some g =>
      if pset.groups.isEmpty then warn "planar segments do not exist" s
      else if !E.ready_for_optimization g hm then
        warn "please generate quality measures first" s
      else
        let s := MainWindow.updateWeights E s
        let s := MainWindow.disableActions true s
        let mesh := Geom.duplicate (meshAddresses s) hm
        let solver := MainWindow.active_solver E s
        let r := E.optimize pset mesh g solver s.weights
        let s := s.emit (Event.optimize s.actions mesh solver s.weights r.solved)
        let s := { s with optimized_mesh_ := some { mesh with facets := r.facets } }
        let s := MainWindow.checkBoxShowInput_setChecked E false s
        let s := MainWindow.checkBoxShowCandidates_setChecked E false s
        let s := MainWindow.checkBoxShowResult_setChecked E true s
        let s := { s with actions := { s.actions with optimization := true } }
        let s := MainWindow.defaultRenderingForResult s
        let s := { s with
                   hint_text_ := "Done! You may tune the parameters to reproduce the result."
                   hint_text2nd_ := "To see where the faces originate, check \x27Per-face Color\x27 in the rendering panel." }
        update_all E s
    | _, _ => warn "face hypothesis do not exist" s

end PaintCanvas

/-! ## MainWindow: opening a file, construction -/

namespace QString

/-- Index of the last occurrence of `c` among the characters from index `i`
on, or `acc` when there is none. -/
def lastIndexOfAux (c : Char) : List Char → Nat → Int → Int
  | [], _, acc => acc
  | x :: xs, i, acc => lastIndexOfAux c xs (i + 1) (if x = c then (i : Int) else acc)

/-- `QString::lastIndexOf` for a one-character needle: `-1` when absent. -/
def lastIndexOf (s : String) (c : Char) : Int := lastIndexOfAux c s.data 0 (-1)

/-- `QString::truncate`: a negative position counts as zero. -/
def truncate (s : String) (pos : Int) : String := String.mk (s.data.take pos.toNat)

/-- `QString::left`: the whole string when `n` is negative or not less than the
size. -/
def left (s : String) (n : Int) : String :=
  if n < 0 then s else String.mk (s.data.take n.toNat)

end QString

namespace MainWindow

/-- `MainWindow::setCurrentFile` (main_window.cpp 433-444); the window title is
left out. -/
def setCurrentFile (fileName : String) (s : State) : State :=
  { s with curDataDirectory_ := QString.left fileName (QString.lastIndexOf fileName '/' + 1) }

/-- `MainWindow::doOpen` (main_window.cpp 515-573): the state afterwards and the
value returned. -/
def doOpen (E : Env) (fileName : String) (s : State) : State × Bool :=
  let ext := E.to_lowercase (E.extension fileName)
  let mesh : Option Map := if ext = "obj" then E.MapIO_read fileName else none
  let pset : Option PointSet := if ext = "obj" then none else E.PointSetIO_read fileName
  let s :=
    if ext = "obj" then
      if mesh.isSome then { s with optimizedMeshFileName_ := fileName } else s
    else
      if pset.isSome then { s with pointCloudFileName_ := fileName } else s
  let s :=
    match mesh with
    | some m => PaintCanvas.setMesh m s
    | none => s
  let s :=
    match pset with
    | some p =>
      let s := PaintCanvas.clear s
      let s := PaintCanvas.setPointSet E p s
      let idx := QString.lastIndexOf fileName '.'
      let s := { s with
                 hypothesisMeshFileName_ := QString.truncate s.pointCloudFileName_ idx ++ ".eobj" }
      { s with optimizedMeshFileName_ := QString.truncate s.pointCloudFileName_ idx ++ ".obj" }
    | none => s
  if pset.isSome || mesh.isSome then
    let s := updateStatusBar E s
    let s := setCurrentFile fileName s
    let s := s.emit (Event.status "File loaded")
    let s :=
      if pset.isSome then
        let s := checkBoxShowInput_setChecked E true s
        let s := checkBoxShowCandidates_setChecked E true s
        let s := checkBoxShowResult_setChecked E true s
        { s with actions :=
            { refinePlanes := true
              generateFacetHypothesis := false
              generateQualityMeasures := false
              optimization := false } }
      else s
    (s, true)
  else
    (s.emit (Event.status "Open failed"), false)

/-- What the constructors take from outside the two source files: the form
(`setupUi`), the renderer, the stored settings and the initial weights. -/
structure Setup where
  checkBoxShowInput : Bool
  checkBoxShowCandidates : Bool
  checkBoxShowResult : Bool
  checkBoxPerFaceColor : Bool
  sharp_edge_style : EdgeStyle
  currentDirectory : String
  weights : Weights

/-- The window after `MainWindow::MainWindow` (main_window.cpp 44-113), which
builds the canvas with `PaintCanvas::PaintCanvas` (paint_canvas.cpp 39-72). -/
def init (E : Env) (u : Setup) : State :=
  let s : State :=
    { point_set_ := none
      hypothesis_mesh_ := none
      optimized_mesh_ := none
      hypothesis_ := none
      show_input_ := true
      show_candidates_ := true
      show_result_ := true
      show_mouse_hint_ := false
      hint_text_ := "To start, click \x27Open\x27 to load a point cloud."
      hint_text2nd_ := ""
      sharp_edge_style := u.sharp_edge_style
      actions :=
        { refinePlanes := true
          generateFacetHypothesis := true
          generateQualityMeasures := true
          optimization := true }
      checkBoxShowInput := u.checkBoxShowInput
      checkBoxShowCandidates := u.checkBoxShowCandidates
      checkBoxShowResult := u.checkBoxShowResult
      checkBoxPerFaceColor := u.checkBoxPerFaceColor
      numPointsLabel_ := ""
      numHypoFacesLabel_ := ""
      numOptimizedFacesLabel_ := ""
      solverBox_ := if E.HAS_GUROBI then "GUROBI" else "SCIP"
      panelClick_ := { shown := u.weights, visible := true }
      panelManual_ := none
      default_weights_ :=
        { fitting := E.truncate_digits u.weights.fitting 3
          coverage := E.truncate_digits u.weights.coverage 3
          complexity := E.truncate_digits u.weights.complexity 3 }
      curDataDirectory_ := u.currentDirectory
      pointCloudFileName_ := ""
      hypothesisMeshFileName_ := ""
      optimizedMeshFileName_ := ""
      weights := u.weights
      rand_ := 0
      trace := [] }
  disableActions true (updateStatusBar E s)

end MainWindow

/-! ## The controller as a transition system -/

/-- The requests a caller can make. -/
inductive Op where
  | doOpen (fileName : String)
  | refinePlanes
  | generateFacetHypothesis
  | generateQualityMeasures
  | optimization
  deriving DecidableEq, Repr

/-- One request, run to completion. -/
def step (E : Env) (s : State) : Op → State
  | Op.doOpen f => (MainWindow.doOpen E f s).1
  | Op.refinePlanes => PaintCanvas.refinePlanes E s
  | Op.generateFacetHypothesis => PaintCanvas.generateFacetHypothesis E s
  | Op.generateQualityMeasures => PaintCanvas.generateQualityMeasures E s
  | Op.optimization => PaintCanvas.optimization E s

/-- A sequence of requests, run one after the other. -/
def run (E : Env) (s : State) (ops : List Op) : State := ops.foldl (step E) s

/-- Whether the user interface lets a request through: a stage slot is
connected to its action (main_window.cpp 199-202), and a disabled action
cannot be triggered; opening a file is always possible. -/
def Op.enabled (s : State) : Op → Bool
  | Op.doOpen _ => true
  | Op.refinePlanes => s.actions.refinePlanes
  | Op.generateFacetHypothesis => s.actions.generateFacetHypothesis
  | Op.generateQualityMeasures => s.actions.generateQualityMeasures
  | Op.optimization => s.actions.optimization

/-- States reached from a freshly built window by any sequence of requests,
each slot called directly whatever its action says, and each request run to its
end before the next is handled: no request is pending while a slot runs. -/
inductive Reachable (E : Env) : State → Prop where
  | init (u : MainWindow.Setup) : Reachable E (MainWindow.init E u)
  | step {s : State} (op : Op) : Reachable E s → Reachable E (step E s op)

/-- States reached from a freshly built window when every request goes through
the user interface: a stage runs only while its action is enabled.  Each
request runs to its end before the next is handled. -/
inductive UiReachable (E : Env) : State → Prop where
  | init (u : MainWindow.Setup) : UiReachable E (MainWindow.init E u)
  | step {s : State} (op : Op) :
      UiReachable E s → op.enabled s = true → UiReachable E (step E s op)

/-- Whether every request of `ops`, made one after the other from `s`, finds
its action enabled. -/
def enabledAlong (E : Env) : State → List Op → Bool
  | _, [] => true
  | s, op :: rest => op.enabled s && enabledAlong E (step E s op) rest

/-- The state differs from `s` by one more warning in the trace and nothing
else. -/
def Rejected (s s' : State) : Prop :=
  ∃ msg, s' = s.emit (Event.warn msg)

/-- `QCoreApplication::processEvents()` with the requests `q` pending: they are
dispatched in turn, each after the one before it has been handled; a click on
a disabled action is not taken, and the slot a request starts finds nothing
pending and runs to its end. -/
def processEvents (E : Env) (q : List Op) (s : State) : State :=
  q.foldl (fun t op => if op.enabled t then step E t op else t) s

namespace Pending

open MainWindow

/-- `PaintCanvas::update_all` (paint_canvas.cpp 301-312) with the requests `q`
pending. -/
def update_all (E : Env) (q : List Op) (s : State) : State :=
  processEvents E q (updateStatusBar E s)

/-- `MainWindow::notify_progress` (main_window.cpp 158-162) with the requests
`q` pending; the progress bar is left out. -/
def notify_progress (E : Env) (q : List Op) (s : State) : State :=
  update_all E q s

/-- `PaintCanvas::setShowInput` (paint_canvas.cpp 448-451) with `q` pending. -/
def setShowInput (E : Env) (q : List Op) (b : Bool) (s : State) : State :=
  update_all E q { s with show_input_ := b }

/-- `PaintCanvas::setShowCandidates` (paint_canvas.cpp 454-457) with `q`
pending. -/
def setShowCandidates (E : Env) (q : List Op) (b : Bool) (s : State) : State :=
  update_all E q { s with show_candidates_ := b }

/-- `PaintCanvas::setShowResult` (paint_canvas.cpp 460-463) with `q` pending. -/
def setShowResult (E : Env) (q : List Op) (b : Bool) (s : State) : State :=
  update_all E q { s with show_result_ := b }

/-- `checkBoxShowInput->setChecked(b)` on a window with requests pending, given
as the pair of the window and the requests: a box that changes runs
`setShowInput`, which takes the requests; a box that does not change leaves
them pending. -/
def checkBoxShowInput_setChecked (E : Env) (b : Bool) (sq : State × List Op) :
    State × List Op :=
  if sq.1.checkBoxShowInput = b then sq
  else (setShowInput E sq.2 b { sq.1 with checkBoxShowInput := b }, [])

/-- `checkBoxShowCandidates->setChecked(b)` on a window with requests pending. -/
def checkBoxShowCandidates_setChecked (E : Env) (b : Bool) (sq : State × List Op) :
    State × List Op :=
  if sq.1.checkBoxShowCandidates = b then sq
  else (setShowCandidates E sq.2 b { sq.1 with checkBoxShowCandidates := b }, [])

/-- `checkBoxShowResult->setChecked(b)` on a window with requests pending. -/
def checkBoxShowResult_setChecked (E : Env) (b : Bool) (sq : State × List Op) :
    State × List Op :=
  if sq.1.checkBoxShowResult = b then sq
  else (setShowResult E sq.2 b { sq.1 with checkBoxShowResult := b }, [])

/-- `PaintCanvas::refinePlanes` (paint_canvas.cpp 466-495) entered with the
requests `q` pending. -/
def refinePlanes (E : Env) (q : List Op) (s : State) : State :=
  match PaintCanvas.pointSet s with
  | none => PaintCanvas.warn "point set does not exist" s
  | some pset =>
    if pset.groups.isEmpty then PaintCanvas.warn "planar segments do not exist" s
    else
      let s := disableActions true s
      let r := E.refine_planes (E.new_HypothesisGenerator pset) pset
      let s := { s with hypothesis_ := some r.1, point_set_ := some r.2 }
      let s := s.emit (Event.refine_planes s.actions)
      let sq := checkBoxShowInput_setChecked E true (s, q)
      let s := { sq.1 with actions := { sq.1.actions with generateFacetHypothesis := true } }
      let s := defaultRenderingForCandidates s
      let s := { s with
                 hint_text_ := "Next: click \x27Hypothesis\x27 to generate candidate faces."
                 hint_text2nd_ := "" }
      update_all E sq.2 s

/-- `PaintCanvas::generateFacetHypothesis` (paint_canvas.cpp 498-543) entered
with the requests `q` pending, while `generate()` reports progress once for
every entry of `progress`, each time with the requests of that entry pending.
The mesh `generate()` returns is stored in the window as those requests left
it. -/
def generateFacetHypothesis (E : Env) (progress : List (List Op)) (q : List Op)
    (s : State) : State :=
  match s.point_set_ with
  | none => PaintCanvas.warn "point set does not exist" s
  | some pset =>
    match s.hypothesis_ with
    | none => PaintCanvas.warn "please refine the planes first" s
    | some g =>
      if pset.groups.isEmpty then PaintCanvas.warn "planar segments do not exist" s
      else
        let s := disableActions true s
        let s := s.emit (Event.out "generating plane hypothesis...")
        let acts := s.actions
        let r := E.generate g pset
        let s := progress.foldl (fun t pending => notify_progress E pending t) s
        let s := { s with hypothesis_mesh_ := r }
        let s := s.emit (Event.generate acts r.isSome)
        match r with
        | some m =>
          let s := s.emit (Event.out "done.")
          let s := { s with
                     hypothesis_mesh_ :=
                       some { m with facets := PaintCanvas.colorFacets E s.rand_ m.facets }
                     rand_ := s.rand_ + m.facets.length }
          let sq := checkBoxShowInput_setChecked E false (s, q)
          let sq := checkBoxShowCandidates_setChecked E true sq
          let s := { sq.1 with actions := { sq.1.actions with generateQualityMeasures := true } }
          let s := defaultRenderingForCandidates s
          let s := { s with
                     hint_text_ := "Next: click \x27Confidences\x27 to compute point/face confidences."
                     hint_text2nd_ := "" }
          update_all E sq.2 s
        | none =>
          let s := s.emit (Event.messageBox "Error!"
            "Failed generating candidate faces. \nCheck if the input point cloud has good planar segments.")
          { s with
            hint_text_ := "Failed generating candidate faces :-("
            hint_text2nd_ := "Check if the input point cloud has good planar segments." }

/-- `PaintCanvas::generateQualityMeasures` (paint_canvas.cpp 546-579) entered
with the requests `q` pending. -/
def generateQualityMeasures (E : Env) (q : List Op) (s : State) : State :=
  match s.point_set_ with
  | none => PaintCanvas.warn "point set does not exist" s
  | some pset =>
    match s.hypothesis_mesh_, s.hypothesis_ with
    | some hm, some g =>
      let style := s.sharp_edge_style
      let s :=
        if style.visible then
          { s with sharp_edge_style := { style with visible := false } }
        else s
      let s := disableActions true s
      let s := { s with
                 hypothesis_mesh_ := some { hm with facets := E.compute_confidences g pset hm } }
      let s := s.emit (Event.compute_confidences s.actions hm)
      let sq := checkBoxShowCandidates_setChecked E true (s, q)
      let s := { sq.1 with actions := { sq.1.actions with optimization := true } }
      let s := defaultRenderingForCandidates s
      let s := { s with
                 hint_text_ := "Next: click \x27Optimization\x27 for face selection."
                 hint_text2nd_ := "" }
      let s := if style.visible then { s with sharp_edge_style := style } else s
      update_all E sq.2 s
    | _, _ => PaintCanvas.warn "face hypothesis do not exist" s

/-- `PaintCanvas::optimization` (paint_canvas.cpp 582-654) entered with the
requests `q` pending. -/
def optimization (E : Env) (q : List Op) (s : State) : State :=
  match s.point_set_ with
  | none => PaintCanvas.warn "point set does not exist" s
  | some pset =>
    match s.hypothesis_mesh_, s.hypothesis_ with
    | some hm, some g =>
      if pset.groups.isEmpty then PaintCanvas.warn "planar segments do not exist" s
      else if !E.ready_for_optimization g hm then
        PaintCanvas.warn "please generate quality measures first" s
      else
        let s := updateWeights E s
        let s := disableActions true s
        let mesh := Geom.duplicate (PaintCanvas.meshAddresses s) hm
        let solver := active_solver E s
        let r := E.optimize pset mesh g solver s.weights
        let s := s.emit (Event.optimize s.actions mesh solver s.weights r.solved)
        let s := { s with optimized_mesh_ := some { mesh with facets := r.facets } }
        let sq := checkBoxShowInput_setChecked E false (s, q)
        let sq := checkBoxShowCandidates_setChecked E false sq
        let sq := checkBoxShowResult_setChecked E true sq
        let s := { sq.1 with actions := { sq.1.actions with optimization := true } }
        let s := defaultRenderingForResult s
        let s := { s with
                   hint_text_ := "Done! You may tune the parameters to reproduce the result."
                   hint_text2nd_ := "To see where the faces originate, check \x27Per-face Color\x27 in the rendering panel." }
        update_all E sq.2 s
    | _, _ => PaintCanvas.warn "face hypothesis do not exist" s

end Pending

/-! ## Weights, solver box, status bar: what the later properties speak of -/

namespace MainWindow

/-- `WeightPanelManual::updateUI`: the panel shows the global weights. -/
def panelManual_updateUI (w : Weights) (p : WeightPanelManual) : WeightPanelManual :=
  { p with fields := w }

/-- `MainWindow::resetWeights` (main_window.cpp 255-262).  The result is `none`
when the call reaches `panelManual_->updateUI()` with `panelManual_` null. -/
def resetWeights (s : State) : Option State :=
  let s := { s with weights := s.default_weights_ }
  let s := panelClick_updateUI s
  match s.panelManual_ with
  | some p => some { s with panelManual_ := some (panelManual_updateUI s.weights p) }
  | none => none

/-- `MainWindow::setManualInputWeights` (main_window.cpp 265-280); a panel built
by `new WeightPanelManual(this)` shows the global weights. -/
def setManualInputWeights (b : Bool) (s : State) : State :=
  let p : WeightPanelManual :=
    match s.panelManual_ with
    | some p => p
    | none => { fields := s.weights, visible := true }
  if b then
    { s with
      panelClick_ := { s.panelClick_ with visible := false }
      panelManual_ := some { p with visible := true } }
  else
    { s with
      panelClick_ := { s.panelClick_ with visible := true }
      panelManual_ := some { p with visible := false } }

/-- The entries of `solverBox_`, in the order `MainWindow::createToolBar`
(main_window.cpp 331-357) adds them. -/
def solverBox_items (E : Env) : List String :=
  (if E.HAS_GUROBI then ["GUROBI"] else []) ++ ["SCIP", "GLPK", "LPSOLVE"]

end MainWindow

/-- The name of a backend, as the solver box spells it. -/
def SolverName.name : SolverName → String
  | SolverName.GUROBI => "GUROBI"
  | SolverName.SCIP => "SCIP"
  | SolverName.GLPK => "GLPK"
  | SolverName.LPSOLVE => "LPSOLVE"

/-- The enabled flags recorded with the call of a stage computation; `none` for
every other event. -/
def Event.stageActions : Event → Option Actions
  | Event.refine_planes a => some a
  | Event.generate a _ => some a
  | Event.compute_confidences a _ => some a
  | Event.optimize a _ _ _ _ => some a
  | _ => none

/-- Whether a request is an open that reads a point cloud: the lower-cased
extension is not `obj` and the point-set reader returns an object. -/
def Op.loadsPointSet (E : Env) : Op → Bool
  | Op.doOpen f => E.to_lowercase (E.extension f) != "obj" && (E.PointSetIO_read f).isSome
  | _ => false

/-- The status bar shows what `updateStatusBar` would write now: the three
labels are those of the current point set, candidate mesh and optimized mesh. -/
def StatusFresh (E : Env) (s : State) : Prop :=
  MainWindow.updateStatusBar E s = s

instance (E : Env) (s : State) : Decidable (StatusFresh E s) :=
  inferInstanceAs (Decidable (MainWindow.updateStatusBar E s = s))

/-- Which of the point set, the generator and the candidate mesh exist, and the
action flags. -/
def State.core (s : State) : Bool × Bool × Bool × Actions :=
  (s.point_set_.isSome, s.hypothesis_.isSome, s.hypothesis_mesh_.isSome, s.actions)

/-! ## A concrete session, for the worked instances -/

namespace Sample

/-- A point cloud of eight points in two planar groups. -/
def cloud : PointSet :=
  { num_points := 8
    groups := [{ points := [0, 1, 2, 3], color := 0 }, { points := [4, 5, 6, 7], color := 0 }] }

/-- A mesh with three facets, as read from a result file. -/
def stored : Map :=
  { addr := 7
    facets := [{ color := 1, data := 5 }, { color := 2, data := 5 }, { color := 3, data := 5 }] }

/-- Collaborators for the worked instances.  `cloud.vg` holds `cloud`,
`result.obj` holds `stored`, every other file is unreadable.  The generator
builds one facet per planar group when `generates` is set and nothing
otherwise; the confidences mark every facet; a mesh is ready when all its
facets are marked; the selector keeps the first facet when `solves` is set and
gives up, leaving the mesh as it is, otherwise. -/
def env (generates solves : Bool) : Env :=
  { HAS_GUROBI := false
    new_HypothesisGenerator := fun _ => { state := 0 }
    refine_planes := fun g p => ({ state := g.state + 1 }, p)
    generate := fun _ p =>
      if generates then
        some { addr := 1, facets := p.groups.map fun _ => { color := 0, data := 0 } }
      else none
    compute_confidences := fun _ _ m => m.facets.map fun f => { f with data := 1 }
    ready_for_optimization := fun _ m => m.facets.all fun f => f.data != 0
    optimize := fun _ m _ _ _ =>
      { solved := solves, facets := if solves then m.facets.take 1 else m.facets }
    random_color := fun n => n + 10
    enumerate_planar_components := fun m => m.facets.length
    MapIO_read := fun f => if f = "result.obj" then some stored else none
    PointSetIO_read := fun f => if f = "cloud.vg" then some cloud else none
    extension := fun f => String.mk (f.data.drop (QString.lastIndexOf f '.' + 1).toNat)
    to_lowercase := fun x => x
    truncate_digits := fun w _ => w
    panel_updateWeights := fun p _ => p.fields }

/-- The form and settings of the worked instances. -/
def setup : MainWindow.Setup :=
  { checkBoxShowInput := true
    checkBoxShowCandidates := true
    checkBoxShowResult := true
    checkBoxPerFaceColor := false
    sharp_edge_style := { visible := true, color := 0, width := 1 }
    currentDirectory := "."
    weights := { fitting := 43, coverage := 27, complexity := 30 } }

/-- The session that runs `ops` on a freshly built window. -/
def session (generates solves : Bool) (ops : List Op) : State :=
  run (env generates solves) (MainWindow.init (env generates solves) setup) ops

/-- A freshly built window: nothing is loaded. -/
def fresh : State := session true true []

/-- After opening `cloud.vg` and refining its planes. -/
def refined (generates : Bool) : State :=
  session generates true [Op.doOpen "cloud.vg", Op.refinePlanes]

/-- After opening, refining and generating the candidate faces. -/
def hypothesised : State :=
  session true true [Op.doOpen "cloud.vg", Op.refinePlanes, Op.generateFacetHypothesis]

/-- After opening, refining, generating and computing the confidences. -/
def scored (solves : Bool) : State :=
  session true solves
    [Op.doOpen "cloud.vg", Op.refinePlanes, Op.generateFacetHypothesis,
     Op.generateQualityMeasures]

/-- As `scored`, with the result file `result.obj` opened afterwards, so that
an optimized mesh is stored. -/
def scoredWithResult (solves : Bool) : State :=
  session true solves
    [Op.doOpen "cloud.vg", Op.refinePlanes, Op.generateFacetHypothesis,
     Op.generateQualityMeasures, Op.doOpen "result.obj"]

/-- After a whole pipeline run with a selector that solves. -/
def optimized : State :=
  session true true
    [Op.doOpen "cloud.vg", Op.refinePlanes, Op.generateFacetHypothesis,
     Op.generateQualityMeasures, Op.optimization]

/-- A point cloud of nine points in three planar groups. -/
def cloud3 : PointSet :=
  { num_points := 9
    groups :=
      [{ points := [0, 1, 2], color := 0 }, { points := [3, 4, 5], color := 0 },
       { points := [6, 7, 8], color := 0 }] }

/-- Merge the first two groups of a list into one. -/
def mergeFirstTwo : List VertexGroup → List VertexGroup
  | a :: b :: rest => { points := a.points ++ b.points, color := a.color } :: rest
  | gs => gs

/-- Collaborators as in `env true true`, except that `three.vg` holds `cloud3`,
every refinement merges the first two planar groups, and the generator builds
one facet per group only when at least two groups are left. -/
def mergingEnv : Env :=
  { env true true with
    refine_planes := fun g p =>
      ({ state := g.state + 1 }, { p with groups := mergeFirstTwo p.groups })
    generate := fun _ p =>
      if 2 ≤ p.groups.length then
        some { addr := 1, facets := p.groups.map fun _ => { color := 0, data := 0 } }
      else none
    PointSetIO_read := fun f => if f = "three.vg" then some cloud3 else none }

/-- With `mergingEnv`: `three.vg` opened and refined, candidate faces generated,
then refined once more by a direct call of the slot, which leaves one planar
group. -/
def mergedTwice : State :=
  run mergingEnv (MainWindow.init mergingEnv setup)
    [Op.doOpen "three.vg", Op.refinePlanes, Op.generateFacetHypothesis, Op.refinePlanes]

/-- The window at the moment `generateFacetHypothesis`, requested on
`refined true`, calls `hypothesis_->generate()` (paint_canvas.cpp 515-520): the
four actions are disabled and the first line is logged. -/
def duringGenerate : State :=
  (MainWindow.disableActions true (refined true)).emit
    (Event.out "generating plane hypothesis...")

/-- As `scored true`, after the user has picked `GLPK` in the solver box. -/
def scoredWithGLPK : State :=
  { scored true with solverBox_ := "GLPK" }

end Sample

end PolyFit

/-! ## Code paths

Every slot either returns after a warning or runs its stage; for each path the
state it returns is given in one piece. -/

namespace PolyFit

open PaintCanvas MainWindow

theorem rejected_warn (msg : String) (s : State) : Rejected s (warn msg s) :=
  ⟨msg, rfl⟩

theorem isEmpty_eq_false_of_ne_nil {α : Type} {l : List α} (h : l ≠ []) :
    l.isEmpty = false := by
  cases l with
  | nil => exact absurd rfl h
  | cons a t => rfl

theorem checkBoxShowInput_setChecked_eq (E : Env) (b : Bool) (s : State) :
    checkBoxShowInput_setChecked E b s =
      { s with
        checkBoxShowInput := b
        show_input_ := if s.checkBoxShowInput = b then s.show_input_ else b
        numPointsLabel_ :=
          if s.checkBoxShowInput = b then s.numPointsLabel_
          else (updateStatusBar E s).numPointsLabel_
        numHypoFacesLabel_ :=
          if s.checkBoxShowInput = b then s.numHypoFacesLabel_
          else (updateStatusBar E s).numHypoFacesLabel_
        numOptimizedFacesLabel_ :=
          if s.checkBoxShowInput = b then s.numOptimizedFacesLabel_
          else (updateStatusBar E s).numOptimizedFacesLabel_ } := by
  unfold checkBoxShowInput_setChecked
  by_cases h : s.checkBoxShowInput = b
  · subst h
    simp
  · simp [h, setShowInput, update_all, updateStatusBar]

theorem checkBoxShowCandidates_setChecked_eq (E : Env) (b : Bool) (s : State) :
    checkBoxShowCandidates_setChecked E b s =
      { s with
        checkBoxShowCandidates := b
        show_candidates_ := if s.checkBoxShowCandidates = b then s.show_candidates_ else b
        numPointsLabel_ :=
          if s.checkBoxShowCandidates = b then s.numPointsLabel_
          else (updateStatusBar E s).numPointsLabel_
        numHypoFacesLabel_ :=
          if s.checkBoxShowCandidates = b then s.numHypoFacesLabel_
          else (updateStatusBar E s).numHypoFacesLabel_
        numOptimizedFacesLabel_ :=
          if s.checkBoxShowCandidates = b then s.numOptimizedFacesLabel_
          else (updateStatusBar E s).numOptimizedFacesLabel_ } := by
  unfold checkBoxShowCandidates_setChecked
  by_cases h : s.checkBoxShowCandidates = b
  · subst h
    simp
  · simp [h, setShowCandidates, update_all, updateStatusBar]

theorem checkBoxShowResult_setChecked_eq (E : Env) (b : Bool) (s : State) :
    checkBoxShowResult_setChecked E b s =
      { s with
        checkBoxShowResult := b
        show_result_ := if s.checkBoxShowResult = b then s.show_result_ else b
        numPointsLabel_ :=
          if s.checkBoxShowResult = b then s.numPointsLabel_
          else (updateStatusBar E s).numPointsLabel_
        numHypoFacesLabel_ :=
          if s.checkBoxShowResult = b then s.numHypoFacesLabel_
          else (updateStatusBar E s).numHypoFacesLabel_
        numOptimizedFacesLabel_ :=
          if s.checkBoxShowResult = b then s.numOptimizedFacesLabel_
          else (updateStatusBar E s).numOptimizedFacesLabel_ } := by
  unfold checkBoxShowResult_setChecked
  by_cases h : s.checkBoxShowResult = b
  · subst h
    simp
  · simp [h, setShowResult, update_all, updateStatusBar]

theorem updateWeights_eq (E : Env) (s : State) :
    updateWeights E s =
      { s with
        panelClick_ := { s.panelClick_ with shown := s.weights }
        weights :=
          match s.panelManual_ with
          | some p => E.panel_updateWeights p s.weights
          | none => s.weights } := by
  unfold updateWeights panelClick_updateUI
  cases h : s.panelManual_ <;> simp [h]

theorem le_foldr_max (live : List Nat) (a : Nat) (h : a ∈ live) : a ≤ live.foldr max 0 := by
  induction live with
  | nil => cases h
  | cons b rest ih =>
    simp only [List.foldr_cons]
    rcases List.mem_cons.mp h with hab | hmem
    · rw [hab]
      exact Nat.le_max_left _ _
    · exact Nat.le_trans (ih hmem) (Nat.le_max_right _ _)

theorem duplicate_addr_not_mem (live : List Nat) (m : Map) :
    (Geom.duplicate live m).addr ∉ live := by
  intro hmem
  have hle := le_foldr_max live _ hmem
  simp only [Geom.duplicate] at hle
  omega

/-! ### refinePlanes -/

theorem refinePlanes_no_point_set (E : Env) (s : State) (h : s.point_set_ = none) :
    refinePlanes E s = warn "point set does not exist" s := by
  simp [refinePlanes, pointSet, h]

theorem refinePlanes_no_groups (E : Env) (s : State) (p : PointSet)
    (h : s.point_set_ = some p) (hg : p.groups = []) :
    refinePlanes E s = warn "planar segments do not exist" s := by
  simp [refinePlanes, pointSet, h, hg]

theorem refinePlanes_run (E : Env) (s : State) (p : PointSet)
    (h : s.point_set_ = some p) (hg : p.groups ≠ []) :
    refinePlanes E s =
      { s with
        point_set_ := some (E.refine_planes (E.new_HypothesisGenerator p) p).2
        hypothesis_ := some (E.refine_planes (E.new_HypothesisGenerator p) p).1
        show_input_ := if s.checkBoxShowInput = true then s.show_input_ else true
        hint_text_ := "Next: click \x27Hypothesis\x27 to generate candidate faces."
        hint_text2nd_ := ""
        actions := ⟨false, true, false, false⟩
        checkBoxShowInput := true
        checkBoxPerFaceColor := true
        numPointsLabel_ :=
          "#points: " ++ toString (E.refine_planes (E.new_HypothesisGenerator p) p).2.num_points
        numHypoFacesLabel_ := (updateStatusBar E s).numHypoFacesLabel_
        numOptimizedFacesLabel_ := (updateStatusBar E s).numOptimizedFacesLabel_
        trace := s.trace ++ [Event.refine_planes ⟨false, false, false, false⟩] } := by
  have hge := isEmpty_eq_false_of_ne_nil hg
  unfold refinePlanes
  simp only [pointSet, h, hge]
  simp [checkBoxShowInput_setChecked_eq, update_all, updateStatusBar,
    defaultRenderingForCandidates, disableActions, State.emit]

/-! ### generateFacetHypothesis -/

theorem generateFacetHypothesis_no_point_set (E : Env) (s : State)
    (h : s.point_set_ = none) :
    generateFacetHypothesis E s = warn "point set does not exist" s := by
  simp [generateFacetHypothesis, h]

theorem generateFacetHypothesis_no_generator (E : Env) (s : State) (p : PointSet)
    (h : s.point_set_ = some p) (hg : s.hypothesis_ = none) :
    generateFacetHypothesis E s = warn "please refine the planes first" s := by
  simp [generateFacetHypothesis, h, hg]

theorem generateFacetHypothesis_no_groups (E : Env) (s : State) (p : PointSet)
    (g : HypothesisGenerator) (h : s.point_set_ = some p) (hg : s.hypothesis_ = some g)
    (hgr : p.groups = []) :
    generateFacetHypothesis E s = warn "planar segments do not exist" s := by
  simp [generateFacetHypothesis, h, hg, hgr]

theorem generateFacetHypothesis_ok (E : Env) (s : State) (p : PointSet)
    (g : HypothesisGenerator) (m : Map) (h : s.point_set_ = some p)
    (hg : s.hypothesis_ = some g) (hgr : p.groups ≠ []) (hm : E.generate g p = some m) :
    generateFacetHypothesis E s =
      { s with
        hypothesis_mesh_ := some { m with facets := colorFacets E s.rand_ m.facets }
        rand_ := s.rand_ + m.facets.length
        show_input_ := if s.checkBoxShowInput = false then s.show_input_ else false
        show_candidates_ := if s.checkBoxShowCandidates = true then s.show_candidates_ else true
        hint_text_ := "Next: click \x27Confidences\x27 to compute point/face confidences."
        hint_text2nd_ := ""
        actions := ⟨false, false, true, false⟩
        checkBoxShowInput := false
        checkBoxShowCandidates := true
        checkBoxPerFaceColor := true
        numPointsLabel_ := "#points: " ++ toString p.num_points
        numHypoFacesLabel_ :=
          "#faces(candidates): " ++ toString (colorFacets E s.rand_ m.facets).length
        numOptimizedFacesLabel_ := (updateStatusBar E s).numOptimizedFacesLabel_
        trace := s.trace ++
          [Event.out "generating plane hypothesis...",
           Event.generate ⟨false, false, false, false⟩ true,
           Event.out "done."] } := by
  have hge := isEmpty_eq_false_of_ne_nil hgr
  unfold generateFacetHypothesis
  simp only [h, hg, hge, hm]
  simp [checkBoxShowInput_setChecked_eq, checkBoxShowCandidates_setChecked_eq, update_all,
    updateStatusBar, defaultRenderingForCandidates, disableActions, State.emit, h, hg,
    Map.size_of_facets]

theorem generateFacetHypothesis_fail (E : Env) (s : State) (p : PointSet)
    (g : HypothesisGenerator) (h : s.point_set_ = some p)
    (hg : s.hypothesis_ = some g) (hgr : p.groups ≠ []) (hm : E.generate g p = none) :
    generateFacetHypothesis E s =
      { s with
        hypothesis_mesh_ := none
        hint_text_ := "Failed generating candidate faces :-("
        hint_text2nd_ := "Check if the input point cloud has good planar segments."
        actions := ⟨false, false, false, false⟩
        trace := s.trace ++
          [Event.out "generating plane hypothesis...",
           Event.generate ⟨false, false, false, false⟩ false,
           Event.messageBox "Error!"
             "Failed generating candidate faces. \nCheck if the input point cloud has good planar segments."] } := by
  have hge := isEmpty_eq_false_of_ne_nil hgr
  unfold generateFacetHypothesis
  simp only [h, hg, hge, hm]
  simp [disableActions, State.emit, h, hg]

/-! ### generateQualityMeasures -/

theorem generateQualityMeasures_no_point_set (E : Env) (s : State)
    (h : s.point_set_ = none) :
    generateQualityMeasures E s = warn "point set does not exist" s := by
  simp [generateQualityMeasures, h]

theorem generateQualityMeasures_no_mesh (E : Env) (s : State) (p : PointSet)
    (h : s.point_set_ = some p) (hm : s.hypothesis_mesh_ = none) :
    generateQualityMeasures E s = warn "face hypothesis do not exist" s := by
  simp [generateQualityMeasures, h, hm]

theorem generateQualityMeasures_no_generator (E : Env) (s : State) (p : PointSet)
    (h : s.point_set_ = some p) (hg : s.hypothesis_ = none) :
    generateQualityMeasures E s = warn "face hypothesis do not exist" s := by
  cases hm : s.hypothesis_mesh_ <;> simp [generateQualityMeasures, h, hm, hg]

theorem generateQualityMeasures_run (E : Env) (s : State) (p : PointSet) (m : Map)
    (g : HypothesisGenerator) (h : s.point_set_ = some p)
    (hm : s.hypothesis_mesh_ = some m) (hg : s.hypothesis_ = some g) :
    generateQualityMeasures E s =
      { s with
        hypothesis_mesh_ := some { m with facets := E.compute_confidences g p m }
        show_candidates_ := if s.checkBoxShowCandidates = true then s.show_candidates_ else true
        hint_text_ := "Next: click \x27Optimization\x27 for face selection."
        hint_text2nd_ := ""
        actions := ⟨false, false, false, true⟩
        checkBoxShowCandidates := true
        checkBoxPerFaceColor := true
        numPointsLabel_ := "#points: " ++ toString p.num_points
        numHypoFacesLabel_ :=
          "#faces(candidates): " ++ toString (E.compute_confidences g p m).length
        numOptimizedFacesLabel_ := (updateStatusBar E s).numOptimizedFacesLabel_
        trace := s.trace ++ [Event.compute_confidences ⟨false, false, false, false⟩ m] } := by
  unfold generateQualityMeasures
  simp only [h, hg, hm]
  cases hv : s.sharp_edge_style.visible <;>
    simp [checkBoxShowCandidates_setChecked_eq, update_all, updateStatusBar,
      defaultRenderingForCandidates, disableActions, State.emit, h, hg, hv,
      Map.size_of_facets]

/-! ### optimization -/

theorem optimization_no_point_set (E : Env) (s : State) (h : s.point_set_ = none) :
    optimization E s = warn "point set does not exist" s := by
  simp [optimization, h]

theorem optimization_no_mesh (E : Env) (s : State) (p : PointSet)
    (h : s.point_set_ = some p) (hm : s.hypothesis_mesh_ = none) :
    optimization E s = warn "face hypothesis do not exist" s := by
  simp [optimization, h, hm]

theorem optimization_no_generator (E : Env) (s : State) (p : PointSet)
    (h : s.point_set_ = some p) (hg : s.hypothesis_ = none) :
    optimization E s = warn "face hypothesis do not exist" s := by
  cases hm : s.hypothesis_mesh_ <;> simp [optimization, h, hm, hg]

theorem optimization_no_groups (E : Env) (s : State) (p : PointSet) (m : Map)
    (g : HypothesisGenerator) (h : s.point_set_ = some p)
    (hm : s.hypothesis_mesh_ = some m) (hg : s.hypothesis_ = some g)
    (hgr : p.groups = []) :
    optimization E s = warn "planar segments do not exist" s := by
  simp [optimization, h, hm, hg, hgr]

theorem optimization_not_ready (E : Env) (s : State) (p : PointSet) (m : Map)
    (g : HypothesisGenerator) (h : s.point_set_ = some p)
    (hm : s.hypothesis_mesh_ = some m) (hg : s.hypothesis_ = some g)
    (hgr : p.groups ≠ []) (hr : E.ready_for_optimization g m = false) :
    optimization E s = warn "please generate quality measures first" s := by
  have hge := isEmpty_eq_false_of_ne_nil hgr
  simp [optimization, h, hm, hg, hge, hr]

theorem optimization_run (E : Env) (s : State) (p : PointSet) (m : Map)
    (g : HypothesisGenerator) (h : s.point_set_ = some p)
    (hm : s.hypothesis_mesh_ = some m) (hg : s.hypothesis_ = some g)
    (hgr : p.groups ≠ []) (hr : E.ready_for_optimization g m = true) :
    optimization E s =
      { s with
        optimized_mesh_ :=
          some { addr := (Geom.duplicate (meshAddresses s) m).addr
                 facets := (E.optimize p (Geom.duplicate (meshAddresses s) m) g
                   (active_solver E s) (updateWeights E s).weights).facets }
        show_input_ := if s.checkBoxShowInput = false then s.show_input_ else false
        show_candidates_ := if s.checkBoxShowCandidates = false then s.show_candidates_ else false
        show_result_ := if s.checkBoxShowResult = true then s.show_result_ else true
        hint_text_ := "Done! You may tune the parameters to reproduce the result."
        hint_text2nd_ := "To see where the faces originate, check \x27Per-face Color\x27 in the rendering panel."
        actions := ⟨false, false, false, true⟩
        checkBoxShowInput := false
        checkBoxShowCandidates := false
        checkBoxShowResult := true
        checkBoxPerFaceColor := false
        numPointsLabel_ := "#points: " ++ toString p.num_points
        numHypoFacesLabel_ := "#faces(candidates): " ++ toString m.facets.length
        numOptimizedFacesLabel_ :=
          "#faces(final): " ++ toString (E.enumerate_planar_components
            { addr := (Geom.duplicate (meshAddresses s) m).addr
              facets := (E.optimize p (Geom.duplicate (meshAddresses s) m) g
                (active_solver E s) (updateWeights E s).weights).facets })
        panelClick_ := { s.panelClick_ with shown := s.weights }
        weights := (updateWeights E s).weights
        trace := s.trace ++
          [Event.optimize ⟨false, false, false, false⟩ (Geom.duplicate (meshAddresses s) m)
            (active_solver E s) (updateWeights E s).weights
            (E.optimize p (Geom.duplicate (meshAddresses s) m) g (active_solver E s)
              (updateWeights E s).weights).solved] } := by
  have hge := isEmpty_eq_false_of_ne_nil hgr
  unfold optimization
  simp only [h, hm, hg, hge, hr]
  simp [checkBoxShowInput_setChecked_eq, checkBoxShowCandidates_setChecked_eq,
    checkBoxShowResult_setChecked_eq, updateWeights_eq, update_all, updateStatusBar,
    defaultRenderingForResult, disableActions, State.emit, active_solver, h, hm, hg,
    Map.size_of_facets, meshAddresses]

/-! ### doOpen -/

theorem doOpen_mesh (E : Env) (f : String) (s : State) (m : Map)
    (hext : E.to_lowercase (E.extension f) = "obj") (hr : E.MapIO_read f = some m) :
    doOpen E f s =
      ({ s with
         optimized_mesh_ := some m
         optimizedMeshFileName_ := f
         numPointsLabel_ := (updateStatusBar E s).numPointsLabel_
         numHypoFacesLabel_ := (updateStatusBar E s).numHypoFacesLabel_
         numOptimizedFacesLabel_ :=
           "#faces(final): " ++ toString (E.enumerate_planar_components m)
         curDataDirectory_ := QString.left f (QString.lastIndexOf f '/' + 1)
         trace := s.trace ++ [Event.status "File loaded"] }, true) := by
  unfold doOpen
  simp [hext, hr, setMesh, updateStatusBar, setCurrentFile, State.emit]

theorem doOpen_mesh_fail (E : Env) (f : String) (s : State)
    (hext : E.to_lowercase (E.extension f) = "obj") (hr : E.MapIO_read f = none) :
    doOpen E f s = (s.emit (Event.status "Open failed"), false) := by
  unfold doOpen
  simp [hext, hr]

theorem doOpen_point_set (E : Env) (f : String) (s : State) (p : PointSet)
    (hext : E.to_lowercase (E.extension f) ≠ "obj") (hr : E.PointSetIO_read f = some p) :
    doOpen E f s =
      ({ s with
         point_set_ := some { p with groups := colorGroups E s.rand_ p.groups }
         hypothesis_mesh_ := none
         optimized_mesh_ := none
         hypothesis_ := none
         rand_ := s.rand_ + (colorGroups E s.rand_ p.groups).length
         show_input_ := if s.checkBoxShowInput = true then s.show_input_ else true
         show_candidates_ := if s.checkBoxShowCandidates = true then s.show_candidates_ else true
         show_result_ := if s.checkBoxShowResult = true then s.show_result_ else true
         show_mouse_hint_ := true
         hint_text_ := "Next: click \x27Refine\x27 to merge very close and near-parallel planar segments."
         hint_text2nd_ := ""
         actions := ⟨true, false, false, false⟩
         checkBoxShowInput := true
         checkBoxShowCandidates := true
         checkBoxShowResult := true
         numPointsLabel_ := "#points: " ++ toString p.num_points
         numHypoFacesLabel_ := "#faces(hypo): 0"
         numOptimizedFacesLabel_ := "#faces(result): 0"
         pointCloudFileName_ := f
         hypothesisMeshFileName_ :=
           QString.truncate f (QString.lastIndexOf f '.') ++ ".eobj"
         optimizedMeshFileName_ :=
           QString.truncate f (QString.lastIndexOf f '.') ++ ".obj"
         curDataDirectory_ := QString.left f (QString.lastIndexOf f '/' + 1)
         trace := s.trace ++ [Event.status "File loaded"] }, true) := by
  unfold doOpen
  simp [hext, hr, setPointSet, clear, checkBoxShowInput_setChecked_eq,
    checkBoxShowCandidates_setChecked_eq, checkBoxShowResult_setChecked_eq, updateStatusBar,
    setCurrentFile, State.emit]

theorem doOpen_point_set_fail (E : Env) (f : String) (s : State)
    (hext : E.to_lowercase (E.extension f) ≠ "obj") (hr : E.PointSetIO_read f = none) :
    doOpen E f s = (s.emit (Event.status "Open failed"), false) := by
  unfold doOpen
  simp [hext, hr]

/-! ### The trace and the user-interface invariant -/

theorem reachable_run (E : Env) (ops : List Op) (s : State) (h : Reachable E s) :
    Reachable E (run E s ops) := by
  induction ops generalizing s with
  | nil => exact h
  | cons op rest ih => exact ih (step E s op) (Reachable.step op h)

theorem uiReachable_run (E : Env) (ops : List Op) (s : State) (h : UiReachable E s)
    (hen : enabledAlong E s ops = true) : UiReachable E (run E s ops) := by
  induction ops generalizing s with
  | nil => exact h
  | cons op rest ih =>
    simp only [enabledAlong, Bool.and_eq_true] at hen
    exact ih (step E s op) (UiReachable.step op h hen.1) hen.2

/-! ## Precondition violations -/

/-- C1: `PaintCanvas::optimization` called while the point set, the candidate
mesh, the hypothesis generator or the planar groups are missing, or while the
candidate mesh is not ready for optimization, returns after one warning: the
state afterwards is the state before with that warning added to the trace.  No
artifact, action flag or hint text changes and the optimizer is not called. -/
theorem optimization_precondition_violation (E : Env) (s : State)
    (h : s.point_set_ = none ∨ s.hypothesis_mesh_ = none ∨ s.hypothesis_ = none ∨
      (∃ p, s.point_set_ = some p ∧ p.groups = []) ∨
      (∃ g m, s.hypothesis_ = some g ∧ s.hypothesis_mesh_ = some m ∧
        E.ready_for_optimization g m = false)) :
    ∃ msg, optimization E s = { s with trace := s.trace ++ [Event.warn msg] } := by
  suffices hrej : Rejected s (optimization E s) from hrej
  cases hp : s.point_set_ with
  | none =>
    rw [optimization_no_point_set E s hp]
    exact rejected_warn _ s
  | some p =>
    cases hm : s.hypothesis_mesh_ with
    | none =>
      rw [optimization_no_mesh E s p hp hm]
      exact rejected_warn _ s
    | some m =>
      cases hgen : s.hypothesis_ with
      | none =>
        rw [optimization_no_generator E s p hp hgen]
        exact rejected_warn _ s
      | some g =>
        by_cases hg : p.groups = []
        · rw [optimization_no_groups E s p m g hp hm hgen hg]
          exact rejected_warn _ s
        · cases hr : E.ready_for_optimization g m with
          | false =>
            rw [optimization_not_ready E s p m g hp hm hgen hg hr]
            exact rejected_warn _ s
          | true =>
            exfalso
            rcases h with h | h | h | ⟨q, hq, hqg⟩ | ⟨g', m', hg', hm', hr'⟩
            · simp [hp] at h
            · simp [hm] at h
            · simp [hgen] at h
            · rw [hp] at hq
              cases hq
              exact hg hqg
            · rw [hgen] at hg'
              rw [hm] at hm'
              cases hg'
              cases hm'
              rw [hr] at hr'
              cases hr'

/-- C1, worked instance: optimization requested right after the candidate
faces were generated, before any confidence was computed. -/
theorem optimization_precondition_violation_witness :
    (∃ g m, Sample.hypothesised.hypothesis_ = some g ∧
        Sample.hypothesised.hypothesis_mesh_ = some m ∧
        (Sample.env true true).ready_for_optimization g m = false) ∧
    ∃ msg, optimization (Sample.env true true) Sample.hypothesised =
      { Sample.hypothesised with trace := Sample.hypothesised.trace ++ [Event.warn msg] } :=
  ⟨⟨⟨1⟩, ⟨1, [⟨12, 0⟩, ⟨13, 0⟩]⟩, by decide, by decide, by decide⟩,
   optimization_precondition_violation (Sample.env true true) Sample.hypothesised
     (Or.inr (Or.inr (Or.inr (Or.inr
       ⟨⟨1⟩, ⟨1, [⟨12, 0⟩, ⟨13, 0⟩]⟩, by decide, by decide, by decide⟩))))⟩

/-- C9: `PaintCanvas::refinePlanes` called without a point set, or with a point
set that has no planar group, returns after one warning: the state afterwards
is the state before with that warning added to the trace.  In particular the
hypothesis generator is neither created nor replaced and no action flag,
artifact or hint text changes. -/
theorem refinePlanes_precondition_violation (E : Env) (s : State)
    (h : s.point_set_ = none ∨ ∃ p, s.point_set_ = some p ∧ p.groups = []) :
    (∃ msg, refinePlanes E s = { s with trace := s.trace ++ [Event.warn msg] }) ∧
    (refinePlanes E s).hypothesis_ = s.hypothesis_ ∧
    (refinePlanes E s).actions = s.actions := by
  have hrej : Rejected s (refinePlanes E s) := by
    rcases h with h | ⟨p, hp, hg⟩
    · rw [refinePlanes_no_point_set E s h]
      exact rejected_warn _ s
    · rw [refinePlanes_no_groups E s p hp hg]
      exact rejected_warn _ s
  obtain ⟨msg, hmsg⟩ := hrej
  refine ⟨⟨msg, hmsg⟩, ?_, ?_⟩
  · rw [hmsg]
    rfl
  · rw [hmsg]
    rfl

/-- C9, worked instance: refine requested on a freshly built window. -/
theorem refinePlanes_precondition_violation_witness :
    Sample.fresh.point_set_ = none ∧
    (∃ msg, refinePlanes (Sample.env true true) Sample.fresh =
      { Sample.fresh with trace := Sample.fresh.trace ++ [Event.warn msg] }) ∧
    (refinePlanes (Sample.env true true) Sample.fresh).hypothesis_ = Sample.fresh.hypothesis_ ∧
    (refinePlanes (Sample.env true true) Sample.fresh).actions = Sample.fresh.actions :=
  ⟨rfl, refinePlanes_precondition_violation (Sample.env true true) Sample.fresh (Or.inl rfl)⟩

/-- C10: a stage requested out of order changes nothing.
`PaintCanvas::generateFacetHypothesis` called while there is no hypothesis
generator, and `PaintCanvas::generateQualityMeasures` called while there is no
candidate mesh, each return after one warning: the state afterwards is the
state before with that warning added to the trace, so every artifact, action
flag and hint text and the sharp-edge style of the renderer are as before. -/
theorem stage_out_of_order (E : Env) (s t : State)
    (hs : s.hypothesis_ = none) (ht : t.hypothesis_mesh_ = none) :
    (∃ msg, generateFacetHypothesis E s = { s with trace := s.trace ++ [Event.warn msg] }) ∧
    (∃ msg, generateQualityMeasures E t = { t with trace := t.trace ++ [Event.warn msg] }) ∧
    (generateQualityMeasures E t).sharp_edge_style = t.sharp_edge_style := by
  have h1 : Rejected s (generateFacetHypothesis E s) := by
    cases hp : s.point_set_ with
    | none =>
      rw [generateFacetHypothesis_no_point_set E s hp]
      exact rejected_warn _ s
    | some p =>
      rw [generateFacetHypothesis_no_generator E s p hp hs]
      exact rejected_warn _ s
  have h2 : Rejected t (generateQualityMeasures E t) := by
    cases hp : t.point_set_ with
    | none =>
      rw [generateQualityMeasures_no_point_set E t hp]
      exact rejected_warn _ t
    | some p =>
      rw [generateQualityMeasures_no_mesh E t p hp ht]
      exact rejected_warn _ t
  refine ⟨h1, h2, ?_⟩
  obtain ⟨msg, hmsg⟩ := h2
  rw [hmsg]
  rfl

/-- C10, worked instance: hypothesis generation requested right after a point
cloud was opened, and confidences requested right after refinement. -/
theorem stage_out_of_order_witness :
    (Sample.session true true [Op.doOpen "cloud.vg"]).hypothesis_ = none ∧
    (Sample.refined true).hypothesis_mesh_ = none ∧
    (∃ msg, generateFacetHypothesis (Sample.env true true)
        (Sample.session true true [Op.doOpen "cloud.vg"]) =
      { Sample.session true true [Op.doOpen "cloud.vg"] with
        trace := (Sample.session true true [Op.doOpen "cloud.vg"]).trace ++ [Event.warn msg] }) ∧
    (∃ msg, generateQualityMeasures (Sample.env true true) (Sample.refined true) =
      { Sample.refined true with
        trace := (Sample.refined true).trace ++ [Event.warn msg] }) ∧
    (generateQualityMeasures (Sample.env true true) (Sample.refined true)).sharp_edge_style =
      (Sample.refined true).sharp_edge_style :=
  ⟨rfl, rfl,
   stage_out_of_order (Sample.env true true)
     (Sample.session true true [Op.doOpen "cloud.vg"]) (Sample.refined true) rfl rfl⟩


/-! ## Optimization -/

/-- C2, as stated, fails: with a candidate mesh that is ready, a stored
optimized mesh read from `result.obj`, and a selector that gives up, the
optimized mesh after `PaintCanvas::optimization` is not the one stored before,
and the controller finishes as after a solve. -/
theorem optimization_solver_failure_counterexample :
    (Sample.scoredWithResult false).optimized_mesh_ = some Sample.stored ∧
    (optimization (Sample.env true false) (Sample.scoredWithResult false)).trace.getLast? =
      some (Event.optimize ⟨false, false, false, false⟩
        ⟨8, [⟨12, 1⟩, ⟨13, 1⟩]⟩ SolverName.SCIP ⟨43, 27, 30⟩ false) ∧
    (optimization (Sample.env true false) (Sample.scoredWithResult false)).optimized_mesh_ =
      some ⟨8, [⟨12, 1⟩, ⟨13, 1⟩]⟩ ∧
    (optimization (Sample.env true false) (Sample.scoredWithResult false)).optimized_mesh_ ≠
      (Sample.scoredWithResult false).optimized_mesh_ ∧
    (optimization (Sample.env true false) (Sample.scoredWithResult false)).hint_text_ =
      "Done! You may tune the parameters to reproduce the result." := by
  decide

/-- C2, amended: `PaintCanvas::optimization` does not read what the selector
reports.  When the solve fails, the optimized mesh afterwards is the duplicate
of the candidate mesh that was handed to the selector, with the facets the
selector left in it, whatever was stored before; the controller finishes as
after a solve, with the optimization action alone enabled and the closing hint. -/
theorem optimization_solver_failure (E : Env) (s : State) (p : PointSet) (m : Map)
    (g : HypothesisGenerator) (h : s.point_set_ = some p)
    (hm : s.hypothesis_mesh_ = some m) (hg : s.hypothesis_ = some g)
    (hgr : p.groups ≠ []) (hr : E.ready_for_optimization g m = true)
    (_hfail : (E.optimize p (Geom.duplicate (meshAddresses s) m) g (active_solver E s)
      (updateWeights E s).weights).solved = false) :
    (optimization E s).optimized_mesh_ =
      some { addr := (Geom.duplicate (meshAddresses s) m).addr
             facets := (E.optimize p (Geom.duplicate (meshAddresses s) m) g (active_solver E s)
               (updateWeights E s).weights).facets } ∧
    (optimization E s).actions = ⟨false, false, false, true⟩ ∧
    (optimization E s).hint_text_ =
      "Done! You may tune the parameters to reproduce the result." := by
  rw [optimization_run E s p m g h hm hg hgr hr]
  exact ⟨rfl, rfl, rfl⟩

/-- C2, amended, worked instance: the selector gives up on the scored sample
session. -/
theorem optimization_solver_failure_witness :
    (optimization (Sample.env true false) (Sample.scored false)).optimized_mesh_ =
      some { addr := (Geom.duplicate (meshAddresses (Sample.scored false))
               ⟨1, [⟨12, 1⟩, ⟨13, 1⟩]⟩).addr
             facets := ((Sample.env true false).optimize
               ⟨8, [⟨[0, 1, 2, 3], 10⟩, ⟨[4, 5, 6, 7], 11⟩]⟩
               (Geom.duplicate (meshAddresses (Sample.scored false))
                 ⟨1, [⟨12, 1⟩, ⟨13, 1⟩]⟩) ⟨1⟩
               (active_solver (Sample.env true false) (Sample.scored false))
               (updateWeights (Sample.env true false) (Sample.scored false)).weights).facets } ∧
    (optimization (Sample.env true false) (Sample.scored false)).actions =
      ⟨false, false, false, true⟩ ∧
    (optimization (Sample.env true false) (Sample.scored false)).hint_text_ =
      "Done! You may tune the parameters to reproduce the result." :=
  optimization_solver_failure (Sample.env true false) (Sample.scored false)
    ⟨8, [⟨[0, 1, 2, 3], 10⟩, ⟨[4, 5, 6, 7], 11⟩]⟩ ⟨1, [⟨12, 1⟩, ⟨13, 1⟩]⟩ ⟨1⟩
    (by decide) (by decide) (by decide) (by decide) (by decide) (by decide)

/-- C5: whenever `PaintCanvas::optimization` runs, the selector is called once,
on `Geom::duplicate` of the candidate mesh, a copy with the same facets; the
optimized mesh stored afterwards is that duplicate instance, whose address is
neither the candidate's nor that of any other mesh the canvas held; and the
candidate mesh and the point set are the same after the call as before. -/
theorem optimization_keeps_candidate (E : Env) (s : State) (p : PointSet) (m : Map)
    (g : HypothesisGenerator) (h : s.point_set_ = some p)
    (hm : s.hypothesis_mesh_ = some m) (hg : s.hypothesis_ = some g)
    (hgr : p.groups ≠ []) (hr : E.ready_for_optimization g m = true) :
    (∃ solver w solved, (optimization E s).trace = s.trace ++
      [Event.optimize ⟨false, false, false, false⟩ (Geom.duplicate (meshAddresses s) m)
        solver w solved]) ∧
    (Geom.duplicate (meshAddresses s) m).facets = m.facets ∧
    (∃ r, (optimization E s).optimized_mesh_ = some r ∧
      r.addr = (Geom.duplicate (meshAddresses s) m).addr ∧
      r.addr ≠ m.addr ∧ r.addr ∉ meshAddresses s) ∧
    (optimization E s).hypothesis_mesh_ = some m ∧
    (optimization E s).hypothesis_mesh_ = s.hypothesis_mesh_ ∧
    (optimization E s).point_set_ = s.point_set_ := by
  have hnew := duplicate_addr_not_mem (meshAddresses s) m
  have hne : (Geom.duplicate (meshAddresses s) m).addr ≠ m.addr := by
    intro heq
    apply hnew
    rw [heq]
    simp [meshAddresses, hm]
  rw [optimization_run E s p m g h hm hg hgr hr]
  exact ⟨⟨_, _, _, rfl⟩, rfl, ⟨_, rfl, rfl, hne, hnew⟩, hm, rfl, rfl⟩

/-- C5, worked instance: optimization on the scored sample session. -/
theorem optimization_keeps_candidate_witness :
    (∃ solver w solved,
      (optimization (Sample.env true true) (Sample.scored true)).trace =
        (Sample.scored true).trace ++
          [Event.optimize ⟨false, false, false, false⟩
            (Geom.duplicate (meshAddresses (Sample.scored true)) ⟨1, [⟨12, 1⟩, ⟨13, 1⟩]⟩)
            solver w solved]) ∧
    (Geom.duplicate (meshAddresses (Sample.scored true)) ⟨1, [⟨12, 1⟩, ⟨13, 1⟩]⟩).facets =
      (⟨1, [⟨12, 1⟩, ⟨13, 1⟩]⟩ : Map).facets ∧
    (∃ r, (optimization (Sample.env true true) (Sample.scored true)).optimized_mesh_ = some r ∧
      r.addr =
        (Geom.duplicate (meshAddresses (Sample.scored true)) ⟨1, [⟨12, 1⟩, ⟨13, 1⟩]⟩).addr ∧
      r.addr ≠ (⟨1, [⟨12, 1⟩, ⟨13, 1⟩]⟩ : Map).addr ∧
      r.addr ∉ meshAddresses (Sample.scored true)) ∧
    (optimization (Sample.env true true) (Sample.scored true)).hypothesis_mesh_ =
      some ⟨1, [⟨12, 1⟩, ⟨13, 1⟩]⟩ ∧
    (optimization (Sample.env true true) (Sample.scored true)).hypothesis_mesh_ =
      (Sample.scored true).hypothesis_mesh_ ∧
    (optimization (Sample.env true true) (Sample.scored true)).point_set_ =
      (Sample.scored true).point_set_ :=
  optimization_keeps_candidate (Sample.env true true) (Sample.scored true)
    ⟨8, [⟨[0, 1, 2, 3], 10⟩, ⟨[4, 5, 6, 7], 11⟩]⟩ ⟨1, [⟨12, 1⟩, ⟨13, 1⟩]⟩ ⟨1⟩
    (by decide) (by decide) (by decide) (by decide) (by decide)

/-- C6: after `PaintCanvas::optimization` has run, the optimization action is
enabled and the point set, the generator and the candidate mesh are the ones
from before the call; a second call, with the weights and the manual weight
panel set to anything, passes every check again and calls the selector on a
duplicate of the same candidate mesh. -/
theorem optimization_can_rerun (E : Env) (s : State) (p : PointSet) (m : Map)
    (g : HypothesisGenerator) (h : s.point_set_ = some p)
    (hm : s.hypothesis_mesh_ = some m) (hg : s.hypothesis_ = some g)
    (hgr : p.groups ≠ []) (hr : E.ready_for_optimization g m = true)
    (w : Weights) (panel : Option WeightPanelManual) :
    (optimization E s).actions.optimization = true ∧
    (optimization E s).point_set_ = some p ∧
    (optimization E s).hypothesis_ = some g ∧
    (optimization E s).hypothesis_mesh_ = some m ∧
    ∃ solver w2 solved,
      (optimization E { optimization E s with weights := w, panelManual_ := panel }).trace =
        (optimization E s).trace ++
          [Event.optimize ⟨false, false, false, false⟩
            (Geom.duplicate (meshAddresses (optimization E s)) m) solver w2 solved] := by
  have h1 : (optimization E s).point_set_ = some p := by
    rw [optimization_run E s p m g h hm hg hgr hr]
    exact h
  have h2 : (optimization E s).hypothesis_ = some g := by
    rw [optimization_run E s p m g h hm hg hgr hr]
    exact hg
  have h3 : (optimization E s).hypothesis_mesh_ = some m := by
    rw [optimization_run E s p m g h hm hg hgr hr]
    exact hm
  have h4 : (optimization E s).actions.optimization = true := by
    rw [optimization_run E s p m g h hm hg hgr hr]
  refine ⟨h4, h1, h2, h3, ?_⟩
  rw [optimization_run E { optimization E s with weights := w, panelManual_ := panel }
    p m g h1 h3 h2 hgr hr]
  exact ⟨_, _, _, rfl⟩

/-- C6, worked instance: a second optimization on the sample session, with
other weights typed into the manual panel. -/
theorem optimization_can_rerun_witness :
    (optimization (Sample.env true true) (Sample.scored true)).actions.optimization = true ∧
    (optimization (Sample.env true true) (Sample.scored true)).point_set_ =
      some ⟨8, [⟨[0, 1, 2, 3], 10⟩, ⟨[4, 5, 6, 7], 11⟩]⟩ ∧
    (optimization (Sample.env true true) (Sample.scored true)).hypothesis_ = some ⟨1⟩ ∧
    (optimization (Sample.env true true) (Sample.scored true)).hypothesis_mesh_ =
      some ⟨1, [⟨12, 1⟩, ⟨13, 1⟩]⟩ ∧
    ∃ solver w2 solved,
      (optimization (Sample.env true true)
        { optimization (Sample.env true true) (Sample.scored true) with
          weights := ⟨43, 27, 30⟩
          panelManual_ := some ⟨⟨10, 20, 70⟩, true⟩ }).trace =
        (optimization (Sample.env true true) (Sample.scored true)).trace ++
          [Event.optimize ⟨false, false, false, false⟩
            (Geom.duplicate
              (meshAddresses (optimization (Sample.env true true) (Sample.scored true)))
              ⟨1, [⟨12, 1⟩, ⟨13, 1⟩]⟩) solver w2 solved] :=
  optimization_can_rerun (Sample.env true true) (Sample.scored true)
    ⟨8, [⟨[0, 1, 2, 3], 10⟩, ⟨[4, 5, 6, 7], 11⟩]⟩ ⟨1, [⟨12, 1⟩, ⟨13, 1⟩]⟩ ⟨1⟩
    (by decide) (by decide) (by decide) (by decide) (by decide)
    ⟨43, 27, 30⟩ (some ⟨⟨10, 20, 70⟩, true⟩)


/-! ## Refinement and the downstream artifacts -/

/-- C3, as stated, fails: after a whole pipeline run the point set is loaded
and has two planar groups, and `PaintCanvas::refinePlanes` leaves both the
candidate mesh and the optimized mesh in place. -/
theorem refinePlanes_discards_counterexample :
    Sample.optimized.point_set_ = some ⟨8, [⟨[0, 1, 2, 3], 10⟩, ⟨[4, 5, 6, 7], 11⟩]⟩ ∧
    hypothesisMesh (refinePlanes (Sample.env true true) Sample.optimized) =
      some ⟨1, [⟨12, 1⟩, ⟨13, 1⟩]⟩ ∧
    optimizedMesh (refinePlanes (Sample.env true true) Sample.optimized) =
      some ⟨2, [⟨12, 1⟩]⟩ ∧
    hypothesisMesh (refinePlanes (Sample.env true true) Sample.optimized) ≠ none ∧
    optimizedMesh (refinePlanes (Sample.env true true) Sample.optimized) ≠ none := by
  decide

/-- C3, amended: for every state with a loaded point set that has at least one
planar group, `PaintCanvas::refinePlanes` replaces the hypothesis generator by
a newly built, refined one and discards nothing: `hypothesisMesh()` and
`optimizedMesh()` return after the call what they returned before it. -/
theorem refinePlanes_keeps_meshes (E : Env) (s : State) (p : PointSet)
    (h : s.point_set_ = some p) (hg : p.groups ≠ []) :
    hypothesisMesh (refinePlanes E s) = hypothesisMesh s ∧
    optimizedMesh (refinePlanes E s) = optimizedMesh s ∧
    (refinePlanes E s).hypothesis_ =
      some (E.refine_planes (E.new_HypothesisGenerator p) p).1 := by
  rw [refinePlanes_run E s p h hg]
  exact ⟨rfl, rfl, rfl⟩

/-- C3, amended, worked instance: refine requested after a whole pipeline
run. -/
theorem refinePlanes_keeps_meshes_witness :
    hypothesisMesh (refinePlanes (Sample.env true true) Sample.optimized) =
      hypothesisMesh Sample.optimized ∧
    optimizedMesh (refinePlanes (Sample.env true true) Sample.optimized) =
      optimizedMesh Sample.optimized ∧
    (refinePlanes (Sample.env true true) Sample.optimized).hypothesis_ =
      some ((Sample.env true true).refine_planes
        ((Sample.env true true).new_HypothesisGenerator
          ⟨8, [⟨[0, 1, 2, 3], 10⟩, ⟨[4, 5, 6, 7], 11⟩]⟩)
        ⟨8, [⟨[0, 1, 2, 3], 10⟩, ⟨[4, 5, 6, 7], 11⟩]⟩).1 :=
  refinePlanes_keeps_meshes (Sample.env true true) Sample.optimized
    ⟨8, [⟨[0, 1, 2, 3], 10⟩, ⟨[4, 5, 6, 7], 11⟩]⟩ (by decide) (by decide)

/-- C7, as stated, fails: on the refined sample session, where the hypothesis
action is enabled, a generator that produces no mesh leaves all four stage
actions disabled. -/
theorem generateFacetHypothesis_failure_counterexample :
    (Sample.env false true).generate ⟨1⟩ ⟨8, [⟨[0, 1, 2, 3], 10⟩, ⟨[4, 5, 6, 7], 11⟩]⟩ = none ∧
    (Sample.refined false).point_set_ =
      some ⟨8, [⟨[0, 1, 2, 3], 10⟩, ⟨[4, 5, 6, 7], 11⟩]⟩ ∧
    (Sample.refined false).hypothesis_ = some ⟨1⟩ ∧
    (Sample.refined false).actions = ⟨false, true, false, false⟩ ∧
    (generateFacetHypothesis (Sample.env false true) (Sample.refined false)).actions =
      ⟨false, false, false, false⟩ ∧
    (generateFacetHypothesis (Sample.env false true) (Sample.refined false)).actions ≠
      (Sample.refined false).actions := by
  decide

/-- C7, amended: when `PaintCanvas::generateFacetHypothesis` is accepted and
the generator returns no mesh, no candidate mesh is stored afterwards, all four
stage actions are disabled, and the point set, the generator and the optimized
mesh are as before; the hint texts report the failure. -/
theorem generateFacetHypothesis_failure (E : Env) (s : State) (p : PointSet)
    (g : HypothesisGenerator) (h : s.point_set_ = some p) (hg : s.hypothesis_ = some g)
    (hgr : p.groups ≠ []) (hfail : E.generate g p = none) :
    (generateFacetHypothesis E s).hypothesis_mesh_ = none ∧
    (generateFacetHypothesis E s).actions = ⟨false, false, false, false⟩ ∧
    (generateFacetHypothesis E s).point_set_ = s.point_set_ ∧
    (generateFacetHypothesis E s).hypothesis_ = s.hypothesis_ ∧
    (generateFacetHypothesis E s).optimized_mesh_ = s.optimized_mesh_ ∧
    (generateFacetHypothesis E s).hint_text_ = "Failed generating candidate faces :-(" ∧
    (generateFacetHypothesis E s).hint_text2nd_ =
      "Check if the input point cloud has good planar segments." := by
  rw [generateFacetHypothesis_fail E s p g h hg hgr hfail]
  exact ⟨rfl, rfl, rfl, rfl, rfl, rfl, rfl⟩

/-- C7, amended, worked instance: the generator fails on the refined sample
session. -/
theorem generateFacetHypothesis_failure_witness :
    (generateFacetHypothesis (Sample.env false true) (Sample.refined false)).hypothesis_mesh_ =
      none ∧
    (generateFacetHypothesis (Sample.env false true) (Sample.refined false)).actions =
      ⟨false, false, false, false⟩ ∧
    (generateFacetHypothesis (Sample.env false true) (Sample.refined false)).point_set_ =
      (Sample.refined false).point_set_ ∧
    (generateFacetHypothesis (Sample.env false true) (Sample.refined false)).hypothesis_ =
      (Sample.refined false).hypothesis_ ∧
    (generateFacetHypothesis (Sample.env false true) (Sample.refined false)).optimized_mesh_ =
      (Sample.refined false).optimized_mesh_ ∧
    (generateFacetHypothesis (Sample.env false true) (Sample.refined false)).hint_text_ =
      "Failed generating candidate faces :-(" ∧
    (generateFacetHypothesis (Sample.env false true) (Sample.refined false)).hint_text2nd_ =
      "Check if the input point cloud has good planar segments." :=
  generateFacetHypothesis_failure (Sample.env false true) (Sample.refined false)
    ⟨8, [⟨[0, 1, 2, 3], 10⟩, ⟨[4, 5, 6, 7], 11⟩]⟩ ⟨1⟩
    (by decide) (by decide) (by decide) (by decide)

/-- C8: when `PaintCanvas::generateFacetHypothesis` is accepted and the
generator returns no mesh, no candidate mesh is stored afterwards, the
confidences action and the optimization action are not enabled, and
`generateQualityMeasures` or `optimization` called next return after one
warning, with the state otherwise unchanged and without running their stage. -/
theorem failed_generation_blocks_later_stages (E : Env) (s : State) (p : PointSet)
    (g : HypothesisGenerator) (h : s.point_set_ = some p) (hg : s.hypothesis_ = some g)
    (hgr : p.groups ≠ []) (hfail : E.generate g p = none) :
    (generateFacetHypothesis E s).hypothesis_mesh_ = none ∧
    (generateFacetHypothesis E s).actions.generateQualityMeasures = false ∧
    (generateFacetHypothesis E s).actions.optimization = false ∧
    (∃ msg, generateQualityMeasures E (generateFacetHypothesis E s) =
      { generateFacetHypothesis E s with
        trace := (generateFacetHypothesis E s).trace ++ [Event.warn msg] }) ∧
    (∃ msg, optimization E (generateFacetHypothesis E s) =
      { generateFacetHypothesis E s with
        trace := (generateFacetHypothesis E s).trace ++ [Event.warn msg] }) := by
  have hmesh : (generateFacetHypothesis E s).hypothesis_mesh_ = none := by
    rw [generateFacetHypothesis_fail E s p g h hg hgr hfail]
  have hps : (generateFacetHypothesis E s).point_set_ = some p := by
    rw [generateFacetHypothesis_fail E s p g h hg hgr hfail]
    exact h
  have ha : (generateFacetHypothesis E s).actions = ⟨false, false, false, false⟩ := by
    rw [generateFacetHypothesis_fail E s p g h hg hgr hfail]
  refine ⟨hmesh, ?_, ?_, ?_, ?_⟩
  · rw [ha]
  · rw [ha]
  · have hq : Rejected (generateFacetHypothesis E s)
        (generateQualityMeasures E (generateFacetHypothesis E s)) := by
      rw [generateQualityMeasures_no_mesh E _ p hps hmesh]
      exact rejected_warn _ _
    exact hq
  · have ho : Rejected (generateFacetHypothesis E s)
        (optimization E (generateFacetHypothesis E s)) := by
      rw [optimization_no_mesh E _ p hps hmesh]
      exact rejected_warn _ _
    exact ho

/-- C8, worked instance: the generator fails on the refined sample session. -/
theorem failed_generation_blocks_later_stages_witness :
    (generateFacetHypothesis (Sample.env false true) (Sample.refined false)).hypothesis_mesh_ =
      none ∧
    (generateFacetHypothesis (Sample.env false true)
      (Sample.refined false)).actions.generateQualityMeasures = false ∧
    (generateFacetHypothesis (Sample.env false true)
      (Sample.refined false)).actions.optimization = false ∧
    (∃ msg, generateQualityMeasures (Sample.env false true)
        (generateFacetHypothesis (Sample.env false true) (Sample.refined false)) =
      { generateFacetHypothesis (Sample.env false true) (Sample.refined false) with
        trace := (generateFacetHypothesis (Sample.env false true)
          (Sample.refined false)).trace ++ [Event.warn msg] }) ∧
    (∃ msg, optimization (Sample.env false true)
        (generateFacetHypothesis (Sample.env false true) (Sample.refined false)) =
      { generateFacetHypothesis (Sample.env false true) (Sample.refined false) with
        trace := (generateFacetHypothesis (Sample.env false true)
          (Sample.refined false)).trace ++ [Event.warn msg] }) :=
  failed_generation_blocks_later_stages (Sample.env false true) (Sample.refined false)
    ⟨8, [⟨[0, 1, 2, 3], 10⟩, ⟨[4, 5, 6, 7], 11⟩]⟩ ⟨1⟩
    (by decide) (by decide) (by decide) (by decide)

/-! ## What one request does to the artifacts, the actions and the trace -/

theorem core_emit (s : State) (e : Event) : (s.emit e).core = s.core := rfl

theorem step_core (E : Env) (s : State) (op : Op) :
    (step E s op).core = s.core ∨
    (step E s op).core = (true, false, false, ⟨true, false, false, false⟩) ∨
    (op = Op.refinePlanes ∧
      (step E s op).core =
        (true, true, s.hypothesis_mesh_.isSome, ⟨false, true, false, false⟩)) ∨
    (step E s op).core = (true, true, true, ⟨false, false, true, false⟩) ∨
    (step E s op).core = (true, true, false, ⟨false, false, false, false⟩) ∨
    (step E s op).core = (true, true, true, ⟨false, false, false, true⟩) := by
  cases op with
  | doOpen f =>
    simp only [step]
    by_cases hext : E.to_lowercase (E.extension f) = "obj"
    · cases hr : E.MapIO_read f with
      | none =>
        left
        rw [doOpen_mesh_fail E f s hext hr]
        rfl
      | some m =>
        left
        rw [doOpen_mesh E f s m hext hr]
        rfl
    · cases hr : E.PointSetIO_read f with
      | none =>
        left
        rw [doOpen_point_set_fail E f s hext hr]
        rfl
      | some p =>
        right
        left
        rw [doOpen_point_set E f s p hext hr]
        rfl
  | refinePlanes =>
    simp only [step]
    cases hp : s.point_set_ with
    | none =>
      left
      rw [refinePlanes_no_point_set E s hp]
      rfl
    | some p =>
      by_cases hg : p.groups = []
      · left
        rw [refinePlanes_no_groups E s p hp hg]
        rfl
      · right
        right
        left
        rw [refinePlanes_run E s p hp hg]
        exact ⟨trivial, rfl⟩
  | generateFacetHypothesis =>
    simp only [step]
    cases hp : s.point_set_ with
    | none =>
      left
      rw [generateFacetHypothesis_no_point_set E s hp]
      rfl
    | some p =>
      cases hgen : s.hypothesis_ with
      | none =>
        left
        rw [generateFacetHypothesis_no_generator E s p hp hgen]
        rfl
      | some g =>
        by_cases hg : p.groups = []
        · left
          rw [generateFacetHypothesis_no_groups E s p g hp hgen hg]
          rfl
        · cases hm : E.generate g p with
          | none =>
            right; right; right; right; left
            rw [generateFacetHypothesis_fail E s p g hp hgen hg hm]
            simp [State.core, hp, hgen]
          | some m =>
            right; right; right; left
            rw [generateFacetHypothesis_ok E s p g m hp hgen hg hm]
            simp [State.core, hp, hgen]
  | generateQualityMeasures =>
    simp only [step]
    cases hp : s.point_set_ with
    | none =>
      left
      rw [generateQualityMeasures_no_point_set E s hp]
      rfl
    | some p =>
      cases hm : s.hypothesis_mesh_ with
      | none =>
        left
        rw [generateQualityMeasures_no_mesh E s p hp hm]
        rfl
      | some m =>
        cases hgen : s.hypothesis_ with
        | none =>
          left
          rw [generateQualityMeasures_no_generator E s p hp hgen]
          rfl
        | some g =>
          right; right; right; right; right
          rw [generateQualityMeasures_run E s p m g hp hm hgen]
          simp [State.core, hp, hgen]
  | optimization =>
    simp only [step]
    cases hp : s.point_set_ with
    | none =>
      left
      rw [optimization_no_point_set E s hp]
      rfl
    | some p =>
      cases hm : s.hypothesis_mesh_ with
      | none =>
        left
        rw [optimization_no_mesh E s p hp hm]
        rfl
      | some m =>
        cases hgen : s.hypothesis_ with
        | none =>
          left
          rw [optimization_no_generator E s p hp hgen]
          rfl
        | some g =>
          by_cases hg : p.groups = []
          · left
            rw [optimization_no_groups E s p m g hp hm hgen hg]
            rfl
          · cases hr : E.ready_for_optimization g m with
            | false =>
              left
              rw [optimization_not_ready E s p m g hp hm hgen hg hr]
              rfl
            | true =>
              right; right; right; right; right
              rw [optimization_run E s p m g hp hm hgen hg hr]
              simp [State.core, hp, hgen, hm]

theorem step_trace (E : Env) (s : State) (op : Op) :
    ∃ l, (step E s op).trace = s.trace ++ l ∧
      ∀ e ∈ l, ∀ a, e.stageActions = some a → a = ⟨false, false, false, false⟩ := by
  cases op with
  | doOpen f =>
    simp only [step]
    by_cases hext : E.to_lowercase (E.extension f) = "obj"
    · cases hr : E.MapIO_read f with
      | none =>
        rw [doOpen_mesh_fail E f s hext hr]
        exact ⟨[Event.status "Open failed"], rfl, by simp [Event.stageActions]⟩
      | some m =>
        rw [doOpen_mesh E f s m hext hr]
        exact ⟨[Event.status "File loaded"], rfl, by simp [Event.stageActions]⟩
    · cases hr : E.PointSetIO_read f with
      | none =>
        rw [doOpen_point_set_fail E f s hext hr]
        exact ⟨[Event.status "Open failed"], rfl, by simp [Event.stageActions]⟩
      | some p =>
        rw [doOpen_point_set E f s p hext hr]
        exact ⟨[Event.status "File loaded"], rfl, by simp [Event.stageActions]⟩
  | refinePlanes =>
    simp only [step]
    cases hp : s.point_set_ with
    | none =>
      rw [refinePlanes_no_point_set E s hp]
      exact ⟨[Event.warn _], rfl, by simp [Event.stageActions]⟩
    | some p =>
      by_cases hg : p.groups = []
      · rw [refinePlanes_no_groups E s p hp hg]
        exact ⟨[Event.warn _], rfl, by simp [Event.stageActions]⟩
      · rw [refinePlanes_run E s p hp hg]
        exact ⟨_, rfl, by simp [Event.stageActions]⟩
  | generateFacetHypothesis =>
    simp only [step]
    cases hp : s.point_set_ with
    | none =>
      rw [generateFacetHypothesis_no_point_set E s hp]
      exact ⟨[Event.warn _], rfl, by simp [Event.stageActions]⟩
    | some p =>
      cases hgen : s.hypothesis_ with
      | none =>
        rw [generateFacetHypothesis_no_generator E s p hp hgen]
        exact ⟨[Event.warn _], rfl, by simp [Event.stageActions]⟩
      | some g =>
        by_cases hg : p.groups = []
        · rw [generateFacetHypothesis_no_groups E s p g hp hgen hg]
          exact ⟨[Event.warn _], rfl, by simp [Event.stageActions]⟩
        · cases hm : E.generate g p with
          | none =>
            rw [generateFacetHypothesis_fail E s p g hp hgen hg hm]
            exact ⟨_, rfl, by simp [Event.stageActions]⟩
          | some m =>
            rw [generateFacetHypothesis_ok E s p g m hp hgen hg hm]
            exact ⟨_, rfl, by simp [Event.stageActions]⟩
  | generateQualityMeasures =>
    simp only [step]
    cases hp : s.point_set_ with
    | none =>
      rw [generateQualityMeasures_no_point_set E s hp]
      exact ⟨[Event.warn _], rfl, by simp [Event.stageActions]⟩
    | some p =>
      cases hm : s.hypothesis_mesh_ with
      | none =>
        rw [generateQualityMeasures_no_mesh E s p hp hm]
        exact ⟨[Event.warn _], rfl, by simp [Event.stageActions]⟩
      | some m =>
        cases hgen : s.hypothesis_ with
        | none =>
          rw [generateQualityMeasures_no_generator E s p hp hgen]
          exact ⟨[Event.warn _], rfl, by simp [Event.stageActions]⟩
        | some g =>
          rw [generateQualityMeasures_run E s p m g hp hm hgen]
          exact ⟨_, rfl, by simp [Event.stageActions]⟩
  | optimization =>
    simp only [step]
    cases hp : s.point_set_ with
    | none =>
      rw [optimization_no_point_set E s hp]
      exact ⟨[Event.warn _], rfl, by simp [Event.stageActions]⟩
    | some p =>
      cases hm : s.hypothesis_mesh_ with
      | none =>
        rw [optimization_no_mesh E s p hp hm]
        exact ⟨[Event.warn _], rfl, by simp [Event.stageActions]⟩
      | some m =>
        cases hgen : s.hypothesis_ with
        | none =>
          rw [optimization_no_generator E s p hp hgen]
          exact ⟨[Event.warn _], rfl, by simp [Event.stageActions]⟩
        | some g =>
          by_cases hg : p.groups = []
          · rw [optimization_no_groups E s p m g hp hm hgen hg]
            exact ⟨[Event.warn _], rfl, by simp [Event.stageActions]⟩
          · cases hr : E.ready_for_optimization g m with
            | false =>
              rw [optimization_not_ready E s p m g hp hm hgen hg hr]
              exact ⟨[Event.warn _], rfl, by simp [Event.stageActions]⟩
            | true =>
              rw [optimization_run E s p m g hp hm hgen hg hr]
              exact ⟨_, rfl, by simp [Event.stageActions]⟩

theorem colorGroups_points (E : Env) (n : Nat) (gs : List VertexGroup) :
    (colorGroups E n gs).map VertexGroup.points = gs.map VertexGroup.points := by
  induction gs generalizing n with
  | nil => rfl
  | cons g rest ih => simp [colorGroups, ih]

/-- C11: for every prior state, when `MainWindow::doOpen` reads a point set
(the lower-cased extension is not `obj` and the point-set reader returns one),
it returns true and the canvas then holds that point set, with its planar groups
given new colours and nothing else changed, has no hypothesis generator, no
candidate mesh and no optimized mesh, and the refine action alone is enabled. -/
theorem doOpen_point_set_clears (E : Env) (f : String) (s : State) (p : PointSet)
    (hext : E.to_lowercase (E.extension f) ≠ "obj") (hr : E.PointSetIO_read f = some p) :
    (doOpen E f s).2 = true ∧
    pointSet (doOpen E f s).1 = some { p with groups := colorGroups E s.rand_ p.groups } ∧
    (∃ q, pointSet (doOpen E f s).1 = some q ∧ q.num_points = p.num_points ∧
      q.groups.map VertexGroup.points = p.groups.map VertexGroup.points) ∧
    (doOpen E f s).1.hypothesis_ = none ∧
    hypothesisMesh (doOpen E f s).1 = none ∧
    optimizedMesh (doOpen E f s).1 = none ∧
    (doOpen E f s).1.actions = ⟨true, false, false, false⟩ := by
  rw [doOpen_point_set E f s p hext hr]
  exact ⟨rfl, rfl, ⟨_, rfl, rfl, colorGroups_points E s.rand_ p.groups⟩, rfl, rfl, rfl, rfl⟩

/-- C11, worked instance: `cloud.vg` opened again after a whole pipeline run. -/
theorem doOpen_point_set_clears_witness :
    (doOpen (Sample.env true true) "cloud.vg" Sample.optimized).2 = true ∧
    pointSet (doOpen (Sample.env true true) "cloud.vg" Sample.optimized).1 =
      some { Sample.cloud with
             groups := colorGroups (Sample.env true true) Sample.optimized.rand_
               Sample.cloud.groups } ∧
    (∃ q, pointSet (doOpen (Sample.env true true) "cloud.vg" Sample.optimized).1 = some q ∧
      q.num_points = Sample.cloud.num_points ∧
      q.groups.map VertexGroup.points = Sample.cloud.groups.map VertexGroup.points) ∧
    (doOpen (Sample.env true true) "cloud.vg" Sample.optimized).1.hypothesis_ = none ∧
    hypothesisMesh (doOpen (Sample.env true true) "cloud.vg" Sample.optimized).1 = none ∧
    optimizedMesh (doOpen (Sample.env true true) "cloud.vg" Sample.optimized).1 = none ∧
    (doOpen (Sample.env true true) "cloud.vg" Sample.optimized).1.actions =
      ⟨true, false, false, false⟩ :=
  doOpen_point_set_clears (Sample.env true true) "cloud.vg" Sample.optimized Sample.cloud
    (by decide) (by decide)

/-- C20: `MainWindow::doOpen` returns true exactly when the reader chosen by
the lower-cased extension, the mesh reader for `obj` and the point-set reader
for anything else, returned an object; when it returns false, the state
afterwards is the state before with the status message "Open failed" added to
the trace, so the artifacts, the action flags and the remembered file names
are unchanged. -/
theorem doOpen_failed (E : Env) (f : String) (s : State) :
    ((doOpen E f s).2 = true ↔
      if E.to_lowercase (E.extension f) = "obj" then (E.MapIO_read f).isSome = true
      else (E.PointSetIO_read f).isSome = true) ∧
    ((doOpen E f s).2 = false →
      (doOpen E f s).1 = { s with trace := s.trace ++ [Event.status "Open failed"] } ∧
      (doOpen E f s).1.point_set_ = s.point_set_ ∧
      (doOpen E f s).1.hypothesis_ = s.hypothesis_ ∧
      (doOpen E f s).1.hypothesis_mesh_ = s.hypothesis_mesh_ ∧
      (doOpen E f s).1.optimized_mesh_ = s.optimized_mesh_ ∧
      (doOpen E f s).1.actions = s.actions ∧
      (doOpen E f s).1.pointCloudFileName_ = s.pointCloudFileName_ ∧
      (doOpen E f s).1.hypothesisMeshFileName_ = s.hypothesisMeshFileName_ ∧
      (doOpen E f s).1.optimizedMeshFileName_ = s.optimizedMeshFileName_ ∧
      (doOpen E f s).1.curDataDirectory_ = s.curDataDirectory_) := by
  have hfail : (s.emit (Event.status "Open failed") =
        { s with trace := s.trace ++ [Event.status "Open failed"] } ∧
      (s.emit (Event.status "Open failed")).point_set_ = s.point_set_ ∧
      (s.emit (Event.status "Open failed")).hypothesis_ = s.hypothesis_ ∧
      (s.emit (Event.status "Open failed")).hypothesis_mesh_ = s.hypothesis_mesh_ ∧
      (s.emit (Event.status "Open failed")).optimized_mesh_ = s.optimized_mesh_ ∧
      (s.emit (Event.status "Open failed")).actions = s.actions ∧
      (s.emit (Event.status "Open failed")).pointCloudFileName_ = s.pointCloudFileName_ ∧
      (s.emit (Event.status "Open failed")).hypothesisMeshFileName_ =
        s.hypothesisMeshFileName_ ∧
      (s.emit (Event.status "Open failed")).optimizedMeshFileName_ =
        s.optimizedMeshFileName_ ∧
      (s.emit (Event.status "Open failed")).curDataDirectory_ = s.curDataDirectory_) :=
    ⟨rfl, rfl, rfl, rfl, rfl, rfl, rfl, rfl, rfl, rfl⟩
  by_cases hext : E.to_lowercase (E.extension f) = "obj"
  · cases hr : E.MapIO_read f with
    | none =>
      rw [doOpen_mesh_fail E f s hext hr]
      refine ⟨by simp [hext], fun _ => hfail⟩
    | some m =>
      rw [doOpen_mesh E f s m hext hr]
      refine ⟨by simp [hext], fun h => ?_⟩
      simp at h
  · cases hr : E.PointSetIO_read f with
    | none =>
      rw [doOpen_point_set_fail E f s hext hr]
      refine ⟨by simp [hext], fun _ => hfail⟩
    | some p =>
      rw [doOpen_point_set E f s p hext hr]
      refine ⟨by simp [hext], fun h => ?_⟩
      simp at h

/-- C20, worked instance: an unreadable file opened after the confidences were
computed. -/
theorem doOpen_failed_witness :
    (doOpen (Sample.env true true) "missing.vg" (Sample.scored true)).2 = false ∧
    (doOpen (Sample.env true true) "missing.vg" (Sample.scored true)).1 =
      { Sample.scored true with
        trace := (Sample.scored true).trace ++ [Event.status "Open failed"] } :=
  ⟨by decide,
   ((doOpen_failed (Sample.env true true) "missing.vg" (Sample.scored true)).2
     (by decide)).1⟩

/-! ## Requests pending while a slot runs

Entered with nothing pending, and with no progress reported, each slot of
`Pending` is the slot of `PaintCanvas` that `step` runs. -/

theorem pending_update_all_nil (E : Env) (s : State) :
    Pending.update_all E [] s = PaintCanvas.update_all E s := rfl

theorem pending_checkBoxShowInput_nil (E : Env) (b : Bool) (s : State) :
    Pending.checkBoxShowInput_setChecked E b (s, []) =
      (MainWindow.checkBoxShowInput_setChecked E b s, []) := by
  unfold Pending.checkBoxShowInput_setChecked MainWindow.checkBoxShowInput_setChecked
  by_cases h : s.checkBoxShowInput = b
  · simp [h]
  · simp only [h, if_false]
    rfl

theorem pending_checkBoxShowCandidates_nil (E : Env) (b : Bool) (s : State) :
    Pending.checkBoxShowCandidates_setChecked E b (s, []) =
      (MainWindow.checkBoxShowCandidates_setChecked E b s, []) := by
  unfold Pending.checkBoxShowCandidates_setChecked MainWindow.checkBoxShowCandidates_setChecked
  by_cases h : s.checkBoxShowCandidates = b
  · simp [h]
  · simp only [h, if_false]
    rfl

theorem pending_checkBoxShowResult_nil (E : Env) (b : Bool) (s : State) :
    Pending.checkBoxShowResult_setChecked E b (s, []) =
      (MainWindow.checkBoxShowResult_setChecked E b s, []) := by
  unfold Pending.checkBoxShowResult_setChecked MainWindow.checkBoxShowResult_setChecked
  by_cases h : s.checkBoxShowResult = b
  · simp [h]
  · simp only [h, if_false]
    rfl

theorem pending_refinePlanes_nil (E : Env) (s : State) :
    Pending.refinePlanes E [] s = PaintCanvas.refinePlanes E s := by
  unfold Pending.refinePlanes PaintCanvas.refinePlanes
  simp only [pending_checkBoxShowInput_nil, pending_update_all_nil]

theorem pending_generateFacetHypothesis_nil (E : Env) (s : State) :
    Pending.generateFacetHypothesis E [] [] s = PaintCanvas.generateFacetHypothesis E s := by
  unfold Pending.generateFacetHypothesis PaintCanvas.generateFacetHypothesis
  simp only [pending_checkBoxShowInput_nil, pending_checkBoxShowCandidates_nil,
    pending_update_all_nil, List.foldl_nil]

theorem pending_generateQualityMeasures_nil (E : Env) (s : State) :
    Pending.generateQualityMeasures E [] s = PaintCanvas.generateQualityMeasures E s := by
  unfold Pending.generateQualityMeasures PaintCanvas.generateQualityMeasures
  simp only [pending_checkBoxShowCandidates_nil, pending_update_all_nil]

theorem pending_optimization_nil (E : Env) (s : State) :
    Pending.optimization E [] s = PaintCanvas.optimization E s := by
  unfold Pending.optimization PaintCanvas.optimization
  simp only [pending_checkBoxShowInput_nil, pending_checkBoxShowCandidates_nil,
    pending_checkBoxShowResult_nil, pending_update_all_nil]

/-! ## Stage order and the action flags -/

theorem quiet_run (E : Env) (evs : List Op) (t : State)
    (ha : t.actions = ⟨false, false, false, false⟩)
    (hen : enabledAlong E t evs = true) (hno : ∀ ev ∈ evs, ev.loadsPointSet E = false) :
    (run E t evs).actions = ⟨false, false, false, false⟩ ∧
    (run E t evs).trace.filterMap Event.stageActions =
      t.trace.filterMap Event.stageActions := by
  induction evs generalizing t with
  | nil => exact ⟨ha, rfl⟩
  | cons ev rest ih =>
    simp only [enabledAlong, Bool.and_eq_true] at hen
    obtain ⟨hev, hrest⟩ := hen
    have hnoev := hno ev (List.mem_cons_self ev rest)
    have hnorest : ∀ e ∈ rest, e.loadsPointSet E = false :=
      fun e he => hno e (List.mem_cons_of_mem ev he)
    have hstep : (step E t ev).actions = ⟨false, false, false, false⟩ ∧
        (step E t ev).trace.filterMap Event.stageActions =
          t.trace.filterMap Event.stageActions := by
      cases ev with
      | doOpen f =>
        simp only [step]
        by_cases hext : E.to_lowercase (E.extension f) = "obj"
        · cases hr : E.MapIO_read f with
          | none =>
            rw [doOpen_mesh_fail E f t hext hr]
            exact ⟨ha, by simp [State.emit, Event.stageActions]⟩
          | some m =>
            rw [doOpen_mesh E f t m hext hr]
            exact ⟨ha, by simp [Event.stageActions]⟩
        · cases hr : E.PointSetIO_read f with
          | none =>
            rw [doOpen_point_set_fail E f t hext hr]
            exact ⟨ha, by simp [State.emit, Event.stageActions]⟩
          | some p =>
            simp [Op.loadsPointSet, hext, hr] at hnoev
      | refinePlanes => simp [Op.enabled, ha] at hev
      | generateFacetHypothesis => simp [Op.enabled, ha] at hev
      | generateQualityMeasures => simp [Op.enabled, ha] at hev
      | optimization => simp [Op.enabled, ha] at hev
    obtain ⟨h1, h2⟩ := ih (step E t ev) hstep.1 hrest hnorest
    exact ⟨h1, h2.trans hstep.2⟩

/-- C12, as stated, fails: at the moment `generateFacetHypothesis` calls the
generator all four stage actions are disabled, yet two events processed from
there, an open of `cloud.vg` and then a click on the refine action, are both
let through by the user interface and invoke `refine_planes`: opening a point
cloud is never disabled and enables the refine action. -/
theorem stage_overlap_counterexample :
    Sample.duringGenerate.actions = ⟨false, false, false, false⟩ ∧
    enabledAlong (Sample.env true true) Sample.duringGenerate
      [Op.doOpen "cloud.vg", Op.refinePlanes] = true ∧
    (step (Sample.env true true) Sample.duringGenerate
      (Op.doOpen "cloud.vg")).actions.refinePlanes = true ∧
    (run (Sample.env true true) Sample.duringGenerate
      [Op.doOpen "cloud.vg", Op.refinePlanes]).trace =
      Sample.duringGenerate.trace ++
        [Event.status "File loaded", Event.refine_planes ⟨false, false, false, false⟩] := by
  decide

/-- C12, amended: whatever the state and whatever the request, every stage
computation the request invokes (`refine_planes`, `generate`,
`compute_confidences`, `FaceSelection::optimize`) is invoked while all four
stage actions are disabled; and from a window with those flags, events that
the user interface lets through and none of which opens a point cloud invoke
no stage computation and leave the four actions disabled. -/
theorem stage_runs_with_actions_disabled (E : Env) (s : State) (op : Op) :
    ∃ l, (step E s op).trace = s.trace ++ l ∧
      ∀ e ∈ l, ∀ a, e.stageActions = some a →
        a = ⟨false, false, false, false⟩ ∧
        ∀ (t : State) (evs : List Op), t.actions = a →
          enabledAlong E t evs = true → (∀ ev ∈ evs, ev.loadsPointSet E = false) →
          (run E t evs).actions = ⟨false, false, false, false⟩ ∧
          (run E t evs).trace.filterMap Event.stageActions =
            t.trace.filterMap Event.stageActions := by
  obtain ⟨l, hl, hq⟩ := step_trace E s op
  refine ⟨l, hl, fun e he a ha => ?_⟩
  have hfalse := hq e he a ha
  refine ⟨hfalse, fun t evs ht hen hno => ?_⟩
  exact quiet_run E evs t (ht.trans hfalse) hen hno

/-- C12, amended, worked instance: the whole pipeline run of the sample session
records four stage computations, each invoked with all four actions disabled;
and while the generator runs, opening the result file `result.obj` and an
unreadable file starts no stage. -/
theorem stage_runs_with_actions_disabled_witness :
    Sample.optimized.trace.filterMap Event.stageActions =
      [⟨false, false, false, false⟩, ⟨false, false, false, false⟩,
       ⟨false, false, false, false⟩, ⟨false, false, false, false⟩] ∧
    (∃ l, (step (Sample.env true true) (Sample.scored true) Op.optimization).trace =
        (Sample.scored true).trace ++ l ∧
      ∀ e ∈ l, ∀ a, e.stageActions = some a →
        a = ⟨false, false, false, false⟩ ∧
        ∀ (t : State) (evs : List Op), t.actions = a →
          enabledAlong (Sample.env true true) t evs = true →
          (∀ ev ∈ evs, ev.loadsPointSet (Sample.env true true) = false) →
          (run (Sample.env true true) t evs).actions = ⟨false, false, false, false⟩ ∧
          (run (Sample.env true true) t evs).trace.filterMap Event.stageActions =
            t.trace.filterMap Event.stageActions) ∧
    (run (Sample.env true true) Sample.duringGenerate
      [Op.doOpen "result.obj", Op.doOpen "missing.vg"]).actions =
        ⟨false, false, false, false⟩ ∧
    (run (Sample.env true true) Sample.duringGenerate
      [Op.doOpen "result.obj", Op.doOpen "missing.vg"]).trace.filterMap Event.stageActions =
        Sample.duringGenerate.trace.filterMap Event.stageActions :=
  ⟨by decide,
   stage_runs_with_actions_disabled (Sample.env true true) (Sample.scored true)
     Op.optimization,
   quiet_run (Sample.env true true) _ Sample.duringGenerate (by decide) (by decide)
     (by decide)⟩

theorem statusFresh_emit (E : Env) (s : State) (e : Event) (h : StatusFresh E s) :
    StatusFresh E (s.emit e) := by
  unfold StatusFresh at *
  have hcomm : updateStatusBar E (s.emit e) = (updateStatusBar E s).emit e := rfl
  rw [hcomm, h]

theorem statusFresh_step (E : Env) (s : State) (op : Op) (h : StatusFresh E s) :
    StatusFresh E (step E s op) ∨
    (op = Op.generateFacetHypothesis ∧ s.hypothesis_mesh_ ≠ none ∧
      (step E s op).hypothesis_mesh_ = none ∧
      (step E s op).numHypoFacesLabel_ = s.numHypoFacesLabel_) := by
  cases op with
  | doOpen f =>
    left
    simp only [step]
    by_cases hext : E.to_lowercase (E.extension f) = "obj"
    · cases hr : E.MapIO_read f with
      | none =>
        rw [doOpen_mesh_fail E f s hext hr]
        exact statusFresh_emit E s _ h
      | some m =>
        rw [doOpen_mesh E f s m hext hr]
        simp [StatusFresh, updateStatusBar]
    · cases hr : E.PointSetIO_read f with
      | none =>
        rw [doOpen_point_set_fail E f s hext hr]
        exact statusFresh_emit E s _ h
      | some p =>
        rw [doOpen_point_set E f s p hext hr]
        simp [StatusFresh, updateStatusBar]
  | refinePlanes =>
    left
    simp only [step]
    cases hp : s.point_set_ with
    | none =>
      rw [refinePlanes_no_point_set E s hp]
      exact statusFresh_emit E s _ h
    | some p =>
      by_cases hg : p.groups = []
      · rw [refinePlanes_no_groups E s p hp hg]
        exact statusFresh_emit E s _ h
      · rw [refinePlanes_run E s p hp hg]
        simp [StatusFresh, updateStatusBar]
  | generateFacetHypothesis =>
    simp only [step]
    cases hp : s.point_set_ with
    | none =>
      left
      rw [generateFacetHypothesis_no_point_set E s hp]
      exact statusFresh_emit E s _ h
    | some p =>
      cases hgen : s.hypothesis_ with
      | none =>
        left
        rw [generateFacetHypothesis_no_generator E s p hp hgen]
        exact statusFresh_emit E s _ h
      | some g =>
        by_cases hg : p.groups = []
        · left
          rw [generateFacetHypothesis_no_groups E s p g hp hgen hg]
          exact statusFresh_emit E s _ h
        · cases hm : E.generate g p with
          | some m =>
            left
            rw [generateFacetHypothesis_ok E s p g m hp hgen hg hm]
            simp [StatusFresh, updateStatusBar, hp, Map.size_of_facets]
          | none =>
            rw [generateFacetHypothesis_fail E s p g hp hgen hg hm]
            cases hmesh : s.hypothesis_mesh_ with
            | some m0 =>
              right
              exact ⟨trivial, by simp, rfl, rfl⟩
            | none =>
              left
              unfold StatusFresh at h
              have h1 := congrArg State.numPointsLabel_ h
              have h2 := congrArg State.numHypoFacesLabel_ h
              have h3 := congrArg State.numOptimizedFacesLabel_ h
              simp only [updateStatusBar, hmesh] at h1 h2 h3
              simp [StatusFresh, updateStatusBar, ← h1, ← h2, ← h3]
  | generateQualityMeasures =>
    left
    simp only [step]
    cases hp : s.point_set_ with
    | none =>
      rw [generateQualityMeasures_no_point_set E s hp]
      exact statusFresh_emit E s _ h
    | some p =>
      cases hm : s.hypothesis_mesh_ with
      | none =>
        rw [generateQualityMeasures_no_mesh E s p hp hm]
        exact statusFresh_emit E s _ h
      | some m =>
        cases hgen : s.hypothesis_ with
        | none =>
          rw [generateQualityMeasures_no_generator E s p hp hgen]
          exact statusFresh_emit E s _ h
        | some g =>
          rw [generateQualityMeasures_run E s p m g hp hm hgen]
          simp [StatusFresh, updateStatusBar, hp, Map.size_of_facets]
  | optimization =>
    left
    simp only [step]
    cases hp : s.point_set_ with
    | none =>
      rw [optimization_no_point_set E s hp]
      exact statusFresh_emit E s _ h
    | some p =>
      cases hm : s.hypothesis_mesh_ with
      | none =>
        rw [optimization_no_mesh E s p hp hm]
        exact statusFresh_emit E s _ h
      | some m =>
        cases hgen : s.hypothesis_ with
        | none =>
          rw [optimization_no_generator E s p hp hgen]
          exact statusFresh_emit E s _ h
        | some g =>
          by_cases hg : p.groups = []
          · rw [optimization_no_groups E s p m g hp hm hgen hg]
            exact statusFresh_emit E s _ h
          · cases hr : E.ready_for_optimization g m with
            | false =>
              rw [optimization_not_ready E s p m g hp hm hgen hg hr]
              exact statusFresh_emit E s _ h
            | true =>
              rw [optimization_run E s p m g hp hm hgen hg hr]
              simp [StatusFresh, updateStatusBar, hp, hm, Map.size_of_facets]

theorem updateStatusBar_labels (E : Env) (s : State) :
    (updateStatusBar E s).numPointsLabel_ =
      "#points: " ++ toString (match pointSet s with
        | some p => p.num_points
        | none => 0) ∧
    (updateStatusBar E s).numHypoFacesLabel_ =
      (match hypothesisMesh s with
        | some _ => "#faces(candidates): "
        | none => "#faces(hypo): ") ++
      toString (match hypothesisMesh s with
        | some m => m.size_of_facets
        | none => 0) ∧
    (updateStatusBar E s).numOptimizedFacesLabel_ =
      (match optimizedMesh s with
        | some _ => "#faces(final): "
        | none => "#faces(result): ") ++
      toString (match optimizedMesh s with
        | some m => E.enumerate_planar_components m
        | none => 0) := by
  refine ⟨?_, ?_, ?_⟩
  · cases hp : s.point_set_ with
    | none =>
      simp only [updateStatusBar, pointSet, hp]
      decide
    | some p => simp only [updateStatusBar, pointSet, hp]
  · cases hm : s.hypothesis_mesh_ with
    | none =>
      simp only [updateStatusBar, hypothesisMesh, hm]
      decide
    | some m => simp only [updateStatusBar, hypothesisMesh, hm]
  · cases hm : s.optimized_mesh_ with
    | none =>
      simp only [updateStatusBar, optimizedMesh, hm]
      decide
    | some m => simp only [updateStatusBar, optimizedMesh, hm]

theorem eq_none_of_isSome_eq_false {α : Type} {o : Option α} (h : o.isSome = false) :
    o = none := by
  cases o with
  | none => rfl
  | some a => cases h

theorem ui_no_mesh_step (E : Env) (s : State) (op : Op) (hen : op.enabled s = true)
    (hr : s.actions.refinePlanes = true → s.hypothesis_mesh_ = none)
    (hh : s.actions.generateFacetHypothesis = true → s.hypothesis_mesh_ = none) :
    ((step E s op).actions.refinePlanes = true → (step E s op).hypothesis_mesh_ = none) ∧
    ((step E s op).actions.generateFacetHypothesis = true →
      (step E s op).hypothesis_mesh_ = none) := by
  have hc := step_core E s op
  simp only [State.core, Prod.mk.injEq] at hc
  rcases hc with ⟨_, _, h3, h4⟩ | ⟨_, _, h3, h4⟩ | ⟨hop, _, _, h3, h4⟩ | ⟨_, _, _, h4⟩ |
    ⟨_, _, h3, _⟩ | ⟨_, _, _, h4⟩
  · constructor
    · intro ha
      rw [h4] at ha
      apply eq_none_of_isSome_eq_false
      rw [h3, hr ha]
      rfl
    · intro ha
      rw [h4] at ha
      apply eq_none_of_isSome_eq_false
      rw [h3, hh ha]
      rfl
  · exact ⟨fun _ => eq_none_of_isSome_eq_false h3, fun _ => eq_none_of_isSome_eq_false h3⟩
  · subst hop
    have hnone : s.hypothesis_mesh_ = none := hr hen
    have hnew : (step E s Op.refinePlanes).hypothesis_mesh_ = none := by
      apply eq_none_of_isSome_eq_false
      rw [h3, hnone]
      rfl
    exact ⟨fun _ => hnew, fun _ => hnew⟩
  · constructor
    · intro ha
      rw [h4] at ha
      cases ha
    · intro ha
      rw [h4] at ha
      cases ha
  · exact ⟨fun _ => eq_none_of_isSome_eq_false h3, fun _ => eq_none_of_isSome_eq_false h3⟩
  · constructor
    · intro ha
      rw [h4] at ha
      cases ha
    · intro ha
      rw [h4] at ha
      cases ha

theorem statusFresh_init (E : Env) (u : Setup) : StatusFresh E (MainWindow.init E u) := rfl

theorem ui_status_invariant (E : Env) (s : State) (h : UiReachable E s) :
    StatusFresh E s ∧
    (s.actions.refinePlanes = true → s.hypothesis_mesh_ = none) ∧
    (s.actions.generateFacetHypothesis = true → s.hypothesis_mesh_ = none) := by
  induction h with
  | init u =>
    refine ⟨statusFresh_init E u, ?_, ?_⟩
    · intro ha
      cases ha
    · intro ha
      cases ha
  | @step t op _ hen ih =>
    obtain ⟨hf, hr, hh⟩ := ih
    refine ⟨?_, ui_no_mesh_step E t op hen hr hh⟩
    rcases statusFresh_step E t op hf with hfresh | ⟨hop, hmesh, _, _⟩
    · exact hfresh
    · subst hop
      exact absurd (hh hen) hmesh

/-- C13, as stated, fails: with the slots called directly, a reachable state
whose status bar is current can hold a candidate mesh of two faces when
`generateFacetHypothesis` runs; if the generator then returns no mesh, the slot
stores none and returns without `update_all()`, and the status bar still reads
two candidate faces, where a refresh would write zero. -/
theorem failed_generation_stale_status_bar_counterexample :
    Reachable Sample.mergingEnv Sample.mergedTwice ∧
    StatusFresh Sample.mergingEnv Sample.mergedTwice ∧
    Sample.mergedTwice.hypothesis_mesh_ = some ⟨1, [⟨13, 0⟩, ⟨14, 0⟩]⟩ ∧
    Sample.mergedTwice.numHypoFacesLabel_ = "#faces(candidates): 2" ∧
    (generateFacetHypothesis Sample.mergingEnv Sample.mergedTwice).hypothesis_mesh_ = none ∧
    (generateFacetHypothesis Sample.mergingEnv Sample.mergedTwice).numHypoFacesLabel_ =
      "#faces(candidates): 2" ∧
    (updateStatusBar Sample.mergingEnv
      (generateFacetHypothesis Sample.mergingEnv Sample.mergedTwice)).numHypoFacesLabel_ =
      "#faces(hypo): 0" ∧
    ¬ StatusFresh Sample.mergingEnv
      (generateFacetHypothesis Sample.mergingEnv Sample.mergedTwice) :=
  ⟨reachable_run Sample.mergingEnv _ _ (Reachable.init Sample.setup),
   by decide, by decide, by decide, by decide, by decide, by decide, by decide⟩

/-- C13, amended: in every state reached through the user interface, where a
stage slot runs only while its action is enabled and each request runs to its
end before the next is handled, the status bar is current: the point count,
the candidate-face count and the planar-component count it shows are the ones
`updateStatusBar` derives from the point set, the candidate mesh and the
optimized mesh of that state.  This covers `doOpen`, `refinePlanes`,
`generateFacetHypothesis` whether it succeeds or fails, `generateQualityMeasures`
and `optimization`. -/
theorem status_bar_current (E : Env) (s : State) (h : UiReachable E s) :
    StatusFresh E s ∧
    s.numPointsLabel_ =
      "#points: " ++ toString (match pointSet s with
        | some p => p.num_points
        | none => 0) ∧
    s.numHypoFacesLabel_ =
      (match hypothesisMesh s with
        | some _ => "#faces(candidates): "
        | none => "#faces(hypo): ") ++
      toString (match hypothesisMesh s with
        | some m => m.size_of_facets
        | none => 0) ∧
    s.numOptimizedFacesLabel_ =
      (match optimizedMesh s with
        | some _ => "#faces(final): "
        | none => "#faces(result): ") ++
      toString (match optimizedMesh s with
        | some m => E.enumerate_planar_components m
        | none => 0) := by
  have hf : StatusFresh E s := (ui_status_invariant E s h).1
  have hc := updateStatusBar_labels E s
  unfold StatusFresh at hf
  rw [hf] at hc
  exact ⟨(ui_status_invariant E s h).1, hc.1, hc.2.1, hc.2.2⟩

/-- C13, amended, worked instance: the sample session with a generator that
produces nothing; the hypothesis action is clicked while enabled, the generation
fails, and the status bar shows no candidate face, as the window holds none. -/
theorem status_bar_current_witness :
    UiReachable (Sample.env false true)
      (Sample.session false true
        [Op.doOpen "cloud.vg", Op.refinePlanes, Op.generateFacetHypothesis]) ∧
    (Sample.session false true
      [Op.doOpen "cloud.vg", Op.refinePlanes, Op.generateFacetHypothesis]).hypothesis_mesh_ =
        none ∧
    (Sample.session false true
      [Op.doOpen "cloud.vg", Op.refinePlanes, Op.generateFacetHypothesis]).numPointsLabel_ =
        "#points: 8" ∧
    (Sample.session false true
      [Op.doOpen "cloud.vg", Op.refinePlanes, Op.generateFacetHypothesis]).numHypoFacesLabel_ =
        "#faces(hypo): 0" ∧
    (Sample.session false true
      [Op.doOpen "cloud.vg", Op.refinePlanes,
        Op.generateFacetHypothesis]).numOptimizedFacesLabel_ = "#faces(result): 0" ∧
    StatusFresh (Sample.env false true)
      (Sample.session false true
        [Op.doOpen "cloud.vg", Op.refinePlanes, Op.generateFacetHypothesis]) :=
  ⟨uiReachable_run (Sample.env false true) _ _ (UiReachable.init Sample.setup) (by decide),
   by decide, by decide, by decide, by decide,
   (status_bar_current (Sample.env false true)
     (Sample.session false true
       [Op.doOpen "cloud.vg", Op.refinePlanes, Op.generateFacetHypothesis])
     (uiReachable_run (Sample.env false true) _ _ (UiReachable.init Sample.setup)
       (by decide))).1⟩

/-- C15: `MainWindow::updateStatusBar` writes, from the current artifacts alone,
the number of points of the point set, or 0 without one; the number of facets
of the candidate mesh, or 0 without one; the number of planar components of the
optimized mesh, as `enumerate_planar_components` counts them, or 0 without one;
and `pointSet()`, `hypothesisMesh()` and `optimizedMesh()` return after the
call what they returned before. -/
theorem updateStatusBar_counts (E : Env) (s : State) :
    (updateStatusBar E s).numPointsLabel_ =
      "#points: " ++ toString (match pointSet s with
        | some p => p.num_points
        | none => 0) ∧
    (updateStatusBar E s).numHypoFacesLabel_ =
      (match hypothesisMesh s with
        | some _ => "#faces(candidates): "
        | none => "#faces(hypo): ") ++
      toString (match hypothesisMesh s with
        | some m => m.size_of_facets
        | none => 0) ∧
    (updateStatusBar E s).numOptimizedFacesLabel_ =
      (match optimizedMesh s with
        | some _ => "#faces(final): "
        | none => "#faces(result): ") ++
      toString (match optimizedMesh s with
        | some m => E.enumerate_planar_components m
        | none => 0) ∧
    pointSet (updateStatusBar E s) = pointSet s ∧
    hypothesisMesh (updateStatusBar E s) = hypothesisMesh s ∧
    optimizedMesh (updateStatusBar E s) = optimizedMesh s := by
  refine ⟨?_, ?_, ?_, rfl, rfl, rfl⟩
  · cases hp : s.point_set_ with
    | none =>
      simp only [updateStatusBar, pointSet, hp]
      decide
    | some p => simp only [updateStatusBar, pointSet, hp]
  · cases hm : s.hypothesis_mesh_ with
    | none =>
      simp only [updateStatusBar, hypothesisMesh, hm]
      decide
    | some m => simp only [updateStatusBar, hypothesisMesh, hm]
  · cases hm : s.optimized_mesh_ with
    | none =>
      simp only [updateStatusBar, optimizedMesh, hm]
      decide
    | some m => simp only [updateStatusBar, optimizedMesh, hm]

/-! ## The solver box and the weights -/

/-- C14, as stated, fails: `GLPK` is offered in the solver box, and with `GLPK`
picked `MainWindow::active_solver` returns `SCIP`, which is what
`PaintCanvas::optimization` then passes to the selector. -/
theorem active_solver_counterexample :
    "GLPK" ∈ solverBox_items (Sample.env true true) ∧
    Sample.scoredWithGLPK.solverBox_ = "GLPK" ∧
    active_solver (Sample.env true true) Sample.scoredWithGLPK = SolverName.SCIP ∧
    (active_solver (Sample.env true true) Sample.scoredWithGLPK).name ≠
      Sample.scoredWithGLPK.solverBox_ ∧
    (optimization (Sample.env true true) Sample.scoredWithGLPK).trace.getLast? =
      some (Event.optimize ⟨false, false, false, false⟩ ⟨2, [⟨12, 1⟩, ⟨13, 1⟩]⟩
        SolverName.SCIP ⟨43, 27, 30⟩ true) := by
  decide

/-- C14, amended: for every name offered in the solver box,
`MainWindow::active_solver` returns `GUROBI` for the name `GUROBI`, which is
offered only in a build with `HAS_GUROBI`, and `SCIP` for each of the names
`SCIP`, `GLPK` and `LPSOLVE`; and `PaintCanvas::optimization`, when it runs,
passes the value of `active_solver` to `FaceSelection::optimize`. -/
theorem active_solver_of_selection (E : Env) (s : State)
    (hsel : s.solverBox_ ∈ solverBox_items E) :
    (s.solverBox_ = "GUROBI" → active_solver E s = SolverName.GUROBI) ∧
    (s.solverBox_ = "SCIP" ∨ s.solverBox_ = "GLPK" ∨ s.solverBox_ = "LPSOLVE" →
      active_solver E s = SolverName.SCIP) ∧
    (∀ p m g, s.point_set_ = some p → s.hypothesis_mesh_ = some m → s.hypothesis_ = some g →
      p.groups ≠ [] → E.ready_for_optimization g m = true →
      ∃ w solved, (optimization E s).trace = s.trace ++
        [Event.optimize ⟨false, false, false, false⟩ (Geom.duplicate (meshAddresses s) m)
          (active_solver E s) w solved]) := by
  refine ⟨?_, ?_, ?_⟩
  · intro hname
    have hG : E.HAS_GUROBI = true := by
      cases hE : E.HAS_GUROBI with
      | true => rfl
      | false =>
        rw [hname] at hsel
        simp [solverBox_items, hE] at hsel
    simp [active_solver, hG, hname]
  · intro hname
    have hne : s.solverBox_ ≠ "GUROBI" := by
      rcases hname with h | h | h <;> rw [h] <;> decide
    simp [active_solver, hne]
  · intro p m g hp hm hgen hg hr
    rw [optimization_run E s p m g hp hm hgen hg hr]
    exact ⟨_, _, rfl⟩

/-- C14, amended, worked instance: `GLPK` picked on the scored sample
session. -/
theorem active_solver_of_selection_witness :
    Sample.scoredWithGLPK.solverBox_ ∈ solverBox_items (Sample.env true true) ∧
    active_solver (Sample.env true true) Sample.scoredWithGLPK = SolverName.SCIP ∧
    ∃ w solved, (optimization (Sample.env true true) Sample.scoredWithGLPK).trace =
      Sample.scoredWithGLPK.trace ++
        [Event.optimize ⟨false, false, false, false⟩
          (Geom.duplicate (meshAddresses Sample.scoredWithGLPK) ⟨1, [⟨12, 1⟩, ⟨13, 1⟩]⟩)
          (active_solver (Sample.env true true) Sample.scoredWithGLPK) w solved] :=
  ⟨by decide,
   (active_solver_of_selection (Sample.env true true) Sample.scoredWithGLPK
     (by decide)).2.1 (Or.inr (Or.inl (by decide))),
   (active_solver_of_selection (Sample.env true true) Sample.scoredWithGLPK
     (by decide)).2.2 ⟨8, [⟨[0, 1, 2, 3], 10⟩, ⟨[4, 5, 6, 7], 11⟩]⟩
       ⟨1, [⟨12, 1⟩, ⟨13, 1⟩]⟩ ⟨1⟩
       (by decide) (by decide) (by decide) (by decide) (by decide)⟩

/-- C19, evaluated where the code departs from it: on a freshly built window,
where `setManualInputWeights` has never been called, `MainWindow::resetWeights`
reaches `panelManual_->updateUI()` with `panelManual_` null, while
`MainWindow::updateWeights` on the same window tests the pointer and goes
through; once `setManualInputWeights` has built the panel, `resetWeights` sets
the three global weights to the defaults taken in `createRenderingPanel` and
both panels show them. -/
theorem resetWeights_null_panel (E : Env) (u : Setup) :
    (MainWindow.init E u).panelManual_ = none ∧
    resetWeights (MainWindow.init E u) = none ∧
    (updateWeights E (MainWindow.init E u)).weights = (MainWindow.init E u).weights ∧
    ∀ b, ∃ t, resetWeights (setManualInputWeights b (MainWindow.init E u)) = some t ∧
      t.weights = (MainWindow.init E u).default_weights_ ∧
      t.panelClick_.shown = (MainWindow.init E u).default_weights_ ∧
      ∃ p, t.panelManual_ = some p ∧ p.fields = (MainWindow.init E u).default_weights_ := by
  refine ⟨rfl, rfl, rfl, fun b => ?_⟩
  cases b with
  | true => exact ⟨_, rfl, rfl, rfl, _, rfl, rfl⟩
  | false => exact ⟨_, rfl, rfl, rfl, _, rfl, rfl⟩

end PolyFit
